import Mathlib

/-!
Verification of the NEZ NES emulator core against its specification.

The definitions below are a shallow embedding of the Python sources
(`ppu.py`, `cpu.py`, `memory.py`, `nes.py`).  Conventions used throughout:

* Python arbitrary-precision nonnegative integers are modelled as `Nat`.
  A Python `x & m` with a contiguous mask `m = 2^k - 1` is written
  `x % 2^k` (the two are equal on nonnegative integers); non-contiguous
  masks keep `&&&`.  A Python `x & ~m` (clearing the bits of `m`)
  is written `andn x m = x - (x &&& m)`, which is exact for
  nonnegative `x`.
* Python lists used as byte arrays (RAM, VRAM, OAM, palette, screen,
  decay timers) are modelled as total functions `Nat → Nat` with the
  pointwise update `fset`.
* `debug_print` calls, instance attributes that the sources never read
  (`oam_data`, `scroll`, `addr`, `data`, `bg_next_tile_*`,
  `rendering_enabled`, `sprite_eval_phase`, `secondary_index`,
  `sprite_fetch_cycle`, `eval_scanline_target`, `odd_frame`,
  `prep_sprite_x/attr/tile/row_*`, `branch_target`, logging counters)
  and attributes that are only deleted but never set
  (`_sprite_zero_set_this_frame`, `force_sprite0_hit_test`,
  `vblank_set_this_frame`, `vblank_read_count`) are omitted: they have
  no effect on any observable state.
* The cartridge CHR/name-table plumbing reached through
  `memory.ppu_read` / `memory.ppu_write` is modelled inside `PPUState`
  as a pure byte function `chr` (the NROM mapper-0 view used by the
  repository's own standalone tests); MMC3's IRQ side channel is
  modelled separately with `Mapper4` for the claim that concerns it.
-/

set_option maxRecDepth 8000

namespace NEZ

/-- Pointwise update of a `Nat → Nat` map (a Python list assignment). -/
def fset (f : Nat → Nat) (i v : Nat) : Nat → Nat := fun j => if j = i then v else f j

/-- Pointwise update of a `Nat → Bool` map. -/
def fsetB (f : Nat → Bool) (i : Nat) (v : Bool) : Nat → Bool :=
  fun j => if j = i then v else f j

/-- Python `n & ~m` for a nonnegative integer `n`: clear in `n` the bits
of `m` (the bits of `n &&& m` are a subset of the bits of `n`, so the
xor removes exactly them). -/
def andn (n m : Nat) : Nat := n ^^^ (n &&& m)

/-! ## PPU state (`ppu.py`, class `PPU`) -/

/-- The PPU state.  Field names follow `PPU.__init__`; see the header
comment for the attributes that are omitted as dead.  `chr`,
`chr_writable`, `has_cartridge` and `name_table_map` stand for the
cartridge reached through `self.memory`. -/
structure PPUState where
  ctrl : Nat
  mask : Nat
  status : Nat
  oam_addr : Nat
  v : Nat
  t : Nat
  x : Nat
  w : Nat
  vram : Nat → Nat
  palette_ram : Nat → Nat
  oam : Nat → Nat
  scanline : Nat
  cycle : Nat
  frame : Nat
  nt_byte : Nat
  at_byte : Nat
  bg_low_byte : Nat
  bg_high_byte : Nat
  bg_shift_pattern_low : Nat
  bg_shift_pattern_high : Nat
  bg_shift_attrib_low : Nat
  bg_shift_attrib_high : Nat
  sprite_count : Nat
  secondary_oam : Nat → Nat
  prep_sprite_indices : Nat → Nat
  sprite_shift_low : Nat → Nat
  sprite_shift_high : Nat → Nat
  sprite_latch_attr : Nat → Nat
  sprite_latch_x : Nat → Nat
  sprite_is_sprite0 : Nat → Bool
  sprite_zero_hit : Bool
  sprite_overflow : Bool
  screen : Nat → Nat
  render : Bool
  buffer : Nat
  bus : Nat
  bus_decay_timer : Nat → Nat
  sprite_eval_index : Nat
  sprite_pattern_buffer_low : Nat → Nat
  sprite_pattern_buffer_high : Nat → Nat
  pending_sprite_count : Nat
  pending_sprite_indices : Nat → Nat
  pending_sprite_attr : Nat → Nat
  pending_sprite_x : Nat → Nat
  pending_sprite_is_sprite0 : Nat → Bool
  use_new_sprite_pipeline : Bool
  sprite_row_experiment : Bool
  sprite_alt_row_hits : Nat
  bg_shift_post_render : Bool
  region_ntsc : Bool
  has_cartridge : Bool
  chr_writable : Bool
  name_table_map : Nat → Nat
  chr : Nat → Nat

namespace PPUState

/-- `PPU.read_vram`.  Returns the value and the mutated PPU (the PPU
open-bus byte `bus` is updated exactly as in the source). -/
def read_vram (p : PPUState) (addr0 : Nat) : Nat × PPUState :=
  let addr := addr0 % 0x4000
  let p := { p with bus := addr }
  if addr < 0x2000 then
    let val := p.chr addr
    (val, { p with bus := val })
  else if addr < 0x3F00 then
    let a := (addr &&& 0xEFFF) - 0x2000
    let nt := a / 0x400
    let off := a % 0x400
    if p.has_cartridge then
      let val := p.vram (p.name_table_map nt + off)
      (val, { p with bus := val })
    else
      let a2 := if a ≥ 0x800 then a % 0x800 else a
      let val := p.vram a2
      (val, { p with bus := val })
  else
    let a := (addr - 0x3F00) % 0x20
    let a :=
      if a % 4 = 0 then
        if a = 0x10 then 0x00
        else if a = 0x14 then 0x04
        else if a = 0x18 then 0x08
        else if a = 0x1C then 0x0C
        else a
      else a
    (p.palette_ram a, p)

/-- `PPU.write_vram`. -/
def write_vram (p : PPUState) (addr0 value : Nat) : PPUState :=
  let addr := addr0 % 0x4000
  let p := { p with bus := value }
  if addr < 0x2000 then
    if p.chr_writable then { p with chr := fset p.chr addr value } else p
  else if addr < 0x3F00 then
    let a := (addr &&& 0xEFFF) - 0x2000
    let nt := a / 0x400
    let off := a % 0x400
    if p.has_cartridge then
      { p with vram := fset p.vram (p.name_table_map nt + off) value }
    else
      let a2 := if a ≥ 0x800 then a % 0x800 else a
      { p with vram := fset p.vram a2 value }
  else
    let a := (addr - 0x3F00) % 0x20
    if a % 4 = 0 then
      { p with palette_ram := fset (fset p.palette_ram a value) (a ^^^ 0x10) value }
    else
      { p with palette_ram := fset p.palette_ram a value }

/-- One iteration of the loop body of `PPU.refresh_bus_bits`. -/
def refresh_bus_bit (p : PPUState) (mask value bit : Nat) : PPUState :=
  if mask &&& (1 <<< bit) ≠ 0 then
    { p with bus := andn p.bus (1 <<< bit) ||| (value &&& (1 <<< bit)),
             bus_decay_timer := fset p.bus_decay_timer bit 600000 }
  else p

/-- `PPU.refresh_bus_bits`: refresh the decay register bits selected by
`mask` with the corresponding bits of `value`. -/
def refresh_bus_bits (p : PPUState) (mask value : Nat) : PPUState :=
  (List.range 8).foldl (fun q b => refresh_bus_bit q mask value b) p

/-- The `$2007` post-access VRAM address increment shared by
`PPU.read_register` and `PPU.write_register`. -/
def inc_v (p : PPUState) : PPUState :=
  if p.ctrl &&& 0x04 ≠ 0 then { p with v := (p.v + 32) % 0x8000 }
  else { p with v := (p.v + 1) % 0x8000 }

/-- The `addr == 0x2002` branch of `PPU.read_register` (PPUSTATUS). -/
def read_2002 (p : PPUState) : Nat × PPUState :=
  let result := (p.status &&& 0xE0) ||| (p.bus &&& 0x1F)
  let p := { p with status := andn p.status 0x80, w := 0 }
  let p := p.refresh_bus_bits 0xE0 result
  (result, p)

/-- The `addr == 0x2004` branch of `PPU.read_register` (OAMDATA). -/
def read_2004 (p : PPUState) : Nat × PPUState :=
  let result := p.oam p.oam_addr
  (result, p.refresh_bus_bits 0xFF result)

/-- Tail of the non-palette `$2007` read: store the freshly fetched
byte in the internal read buffer, refresh all open-bus bits with the
returned (stale-buffer) value, and increment `v`. -/
def read_2007_fill (result bufval : Nat) (q : PPUState) : Nat × PPUState :=
  let q := { q with buffer := bufval }
  let q := q.refresh_bus_bits 0xFF result
  (result, q.inc_v)

/-- Tail of the palette `$2007` read, after the palette value `pv` has
been fetched: the returned byte mixes the PPU open-bus byte (bits 7-6)
with the palette value (bits 5-0); bits 5-0 of the decay register are
refreshed. -/
def read_2007_pal2 (pv : Nat) (q : PPUState) : Nat × PPUState :=
  let result := (q.bus &&& 0xC0) ||| (pv &&& 0x3F)
  let q := q.refresh_bus_bits 0x3F result
  (result, q.inc_v)

/-- Middle of the palette `$2007` read: store the nametable byte fetched
from `v - $1000` into the read buffer, then fetch the palette byte at
`v`. -/
def read_2007_pal (bufval : Nat) (q : PPUState) : Nat × PPUState :=
  let q := { q with buffer := bufval }
  let r2 := q.read_vram q.v
  read_2007_pal2 r2.1 r2.2

/-- The `addr == 0x2007` branch of `PPU.read_register` (PPUDATA), split
into the statements of the source's two sub-branches. -/
def read_2007 (p : PPUState) : Nat × PPUState :=
  if p.v < 0x3F00 then
    let r1 := p.read_vram p.v
    read_2007_fill p.buffer r1.1 r1.2
  else
    let r1 := p.read_vram (p.v - 0x1000)
    read_2007_pal r1.1 r1.2

/-- `PPU.read_register`; write-only registers and unmapped addresses
return the PPU open-bus byte. -/
def read_register (p : PPUState) (addr : Nat) : Nat × PPUState :=
  if addr = 0x2002 then read_2002 p
  else if addr = 0x2004 then read_2004 p
  else if addr = 0x2007 then read_2007 p
  else (p.bus, p)

/-- The `addr == 0x2000` branch of `PPU.write_register` (PPUCTRL). -/
def write_2000 (p : PPUState) (value : Nat) : PPUState :=
  { p with ctrl := value, t := (p.t &&& 0xF3FF) ||| ((value &&& 0x03) <<< 10) }

/-- The `addr == 0x2005` branch of `PPU.write_register` (PPUSCROLL). -/
def write_2005 (p : PPUState) (value : Nat) : PPUState :=
  if p.w = 0 then
    { p with t := (p.t &&& 0xFFE0) ||| (value >>> 3), x := value &&& 0x07, w := 1 }
  else
    let t1 := (p.t &&& 0x8FFF) ||| ((value &&& 0x07) <<< 12)
    let t2 := (t1 &&& 0xFC1F) ||| ((value &&& 0xF8) <<< 2)
    { p with t := t2, w := 0 }

/-- The `addr == 0x2006` branch of `PPU.write_register` (PPUADDR). -/
def write_2006 (p : PPUState) (value : Nat) : PPUState :=
  if p.w = 0 then
    { p with t := (p.t &&& 0x80FF) ||| ((value &&& 0x3F) <<< 8), w := 1 }
  else
    let t2 := (p.t &&& 0xFF00) ||| value
    { p with t := t2, v := t2, w := 0 }

/-- `PPU.write_register`.  Every write first refreshes all eight open-bus
decay bits with the written value. -/
def write_register (p : PPUState) (addr value : Nat) : PPUState :=
  let p := p.refresh_bus_bits 0xFF value
  if addr = 0x2000 then write_2000 p value
  else if addr = 0x2001 then { p with mask := value }
  else if addr = 0x2003 then { p with oam_addr := value }
  else if addr = 0x2004 then
    { p with oam := fset p.oam p.oam_addr value, oam_addr := (p.oam_addr + 1) % 256 }
  else if addr = 0x2005 then write_2005 p value
  else if addr = 0x2006 then write_2006 p value
  else if addr = 0x2007 then (p.write_vram p.v value).inc_v
  else p

end PPUState

/-! ## C7: palette mirroring through the CPU-visible register interface -/

/-- Set the PPU VRAM address with two `$2006` writes, write one byte
through `$2007`, set the address again, and read back through `$2007`:
the canonical CPU access pattern for palette RAM. -/
def palette_probe (p : PPUState) (wa ra v : Nat) : Nat :=
  let p := p.write_register 0x2006 (wa >>> 8)
  let p := p.write_register 0x2006 (wa % 256)
  let p := p.write_register 0x2007 v
  let p := p.write_register 0x2006 (ra >>> 8)
  let p := p.write_register 0x2006 (ra % 256)
  (p.read_register 0x2007).1

/-! ## CPU state (`cpu.py`, class `CPU`) -/

/-- The interrupt kinds latched in `CPU.interrupt_pending`
(the source uses the strings `"NMI"`, `"IRQ"`, `"RST"`; `None` is
`Option.none` here). -/
inductive IrqKind where
  | nmi
  | irq
  | rst
deriving DecidableEq

/-- CPU registers and bookkeeping, following `CPU.__init__`.  The dead
attribute `branch_target` is omitted.  Flags are 0/1 naturals exactly as
in the source. -/
structure CPUState where
  A : Nat
  X : Nat
  Y : Nat
  PC : Nat
  S : Nat
  C : Nat
  Z : Nat
  I : Nat
  D : Nat
  B : Nat
  V : Nat
  N : Nat
  cycles : Nat
  dma_cycles : Nat
  total_cycles : Nat
  odd_cycle : Nat
  interrupt_pending : Option IrqKind
  interrupt_state : Nat
  interrupt_inhibit : Nat
  interrupt_delay_counter : Nat
  interrupt_delay_pending : Bool
  interrupt_delay_value : Option Nat
  branch_pending : Bool

/-- The cartridge as seen by `Mapper0` (NROM): PRG ROM (indexed by
offset from `$8000`), its size in 16 KiB units, and 8 KiB PRG RAM. -/
structure CartState where
  prg_rom : Nat → Nat
  prg_rom_size : Nat
  prg_ram : Nat → Nat

/-- `Mapper0.cpu_read`. -/
def CartState.cpu_read (c : CartState) (addr : Nat) : Nat :=
  if addr < 0x6000 then 0
  else if addr ≤ 0x7FFF then c.prg_ram (addr - 0x6000)
  else if c.prg_rom_size = 1 then c.prg_rom ((addr - 0x8000) % 0x4000)
  else c.prg_rom (addr - 0x8000)

/-- `Mapper0.cpu_write` (PRG RAM only; NROM has no registers). -/
def CartState.cpu_write (c : CartState) (addr value : Nat) : CartState :=
  if 0x6000 ≤ addr ∧ addr ≤ 0x7FFF then
    { c with prg_ram := fset c.prg_ram (addr - 0x6000) value }
  else c

/-- The whole machine: the CPU plus the fields of the `Memory` class
(`memory.py`), with the PPU and the NROM cartridge attached.  The APU
reference is `None`, the standalone configuration the repository's own
`test_*.py` scripts construct (`Memory()` + `CPU(memory)`); no verified
claim reads or writes an APU register. -/
structure Machine where
  cpu : CPUState
  ram : Nat → Nat
  bus : Nat
  controller1 : Nat
  controller2 : Nat
  controller1_shift : Nat
  controller2_shift : Nat
  controller1_index : Nat
  controller2_index : Nat
  strobe : Nat
  ppu : PPUState
  cart : CartState

/-- Tail of the `$4016` read in `Memory.read`: mix the serial bit into
the open-bus byte (`(bus & 0xE0) | (result & 0x01) | 0x40`). -/
def read_4016_cont (result : Nat) (m : Machine) : Nat × Machine :=
  let bus2 := (m.bus &&& 0xE0) ||| (result &&& 0x01) ||| 0x40
  (bus2, { m with bus := bus2 })

/-- The `addr == 0x4016` branch of `Memory.read` (controller 1). -/
def read_4016 (m : Machine) : Nat × Machine :=
  if m.strobe ≠ 0 then read_4016_cont (m.controller1 % 2) m
  else if m.controller1_index > 7 then read_4016_cont 1 m
  else
    read_4016_cont ((m.controller1_shift >>> m.controller1_index) % 2)
      { m with controller1_index := m.controller1_index + 1 }

/-- `Memory.read`.  The `$4015` branch returns open bus because the APU
reference is `None` in this configuration. -/
def mem_read (m : Machine) (addr0 : Nat) : Nat × Machine :=
  let addr := addr0 % 0x10000
  if addr < 0x2000 then
    let v := m.ram (addr % 0x800)
    (v, { m with bus := v })
  else if addr < 0x4000 then
    let r := m.ppu.read_register (0x2000 + addr % 8)
    (r.1, { m with ppu := r.2, bus := r.1 })
  else if addr = 0x4015 then (m.bus, m)
  else if addr = 0x4016 then read_4016 m
  else if addr = 0x4017 then (m.bus, m)
  else if addr < 0x4020 then (m.bus, m)
  else
    let v := m.cart.cpu_read addr
    (v, { m with bus := v })

/-- `Memory.get_ptr`: direct array access for the OAM-DMA fast path.
Returns the backing byte map, the offset, and the array length. -/
def get_ptr (m : Machine) (addr : Nat) : Option ((Nat → Nat) × Nat × Nat) :=
  if addr < 0x2000 then some (m.ram, addr % 0x800, 0x800)
  else if 0x6000 ≤ addr ∧ addr < 0x8000 then
    some (m.cart.prg_ram, addr - 0x6000, 0x2000)
  else none

/-- The OAM-DMA slow-path loop of `Memory.write` (`$4014`):
`for i in range(256): self.ppu.oam[i] = self.read(start_addr + i)`.
`fuel` counts the remaining iterations (256 at the top call). -/
def dma_slow (start : Nat) : Nat → Nat → Machine → Machine
  | 0, _, m => m
  | fuel + 1, i, m =>
    let r := mem_read m (start + i)
    dma_slow start fuel (i + 1)
      { r.2 with ppu := { r.2.ppu with oam := fset r.2.ppu.oam i r.1 } }

/-- `CPU.add_dma_cycles`: 513 stall cycles plus one more when the CPU is
on an odd cycle. -/
def add_dma_cycles (c : CPUState) (n : Nat) : CPUState :=
  let c := { c with dma_cycles := c.dma_cycles + n }
  if c.odd_cycle ≠ 0 then { c with dma_cycles := c.dma_cycles + 1 } else c

/-- The `addr == 0x4014` branch of `Memory.write` (OAM DMA).  The fast
path copies all 256 OAM bytes straight from the backing array (the loop
`for i in range(256): self.ppu.oam[i] = ptr_data[offset + i]` overwrites
the whole 256-byte OAM, rendered here as a pointwise function). -/
def write_4014 (m : Machine) (value : Nat) : Machine :=
  let start_addr := value * 0x100
  let m2 :=
    match get_ptr m start_addr with
    | some (data, offset, len) =>
      if offset + 256 ≤ len then
        { m with
          ppu := { m.ppu with
            oam := fun i => if i < 256 then data (offset + i) else m.ppu.oam i },
          bus := data (offset + 255) }
      else dma_slow start_addr 256 0 m
    | none => dma_slow start_addr 256 0 m
  { m2 with cpu := add_dma_cycles m2.cpu 513 }

/-- The `addr == 0x4016` branch of `Memory.write` (controller strobe).
`old_bus` is the bus byte captured before the write updated it. -/
def write_4016 (m : Machine) (old_bus value : Nat) : Machine :=
  let old_strobe := m.strobe
  let m := { m with strobe := value % 2 }
  let m :=
    if old_strobe ≠ 0 ∧ m.strobe = 0 then
      { m with controller1_shift := m.controller1,
               controller2_shift := m.controller2,
               controller1_index := 0, controller2_index := 0 }
    else m
  { m with bus := (old_bus &&& 0xE0) ||| (value &&& 0x1F) }

/-- `Memory.write`.  Addresses `$4000–$4013`, `$4015` and `$4017` go to
the APU, which is `None` in this configuration, so they only latch the
bus byte. -/
def mem_write (m0 : Machine) (addr0 val0 : Nat) : Machine :=
  let addr := addr0 % 0x10000
  let value := val0 % 0x100
  let old_bus := m0.bus
  let m := { m0 with bus := value }
  if addr < 0x2000 then { m with ram := fset m.ram (addr % 0x800) value }
  else if addr < 0x4000 then
    { m with ppu := m.ppu.write_register (0x2000 + addr % 8) value }
  else if addr = 0x4014 then write_4014 m value
  else if addr = 0x4016 then write_4016 m old_bus value
  else if 0x4000 ≤ addr ∧ addr ≤ 0x4017 then m
  else if addr < 0x4020 then m
  else { m with cart := m.cart.cpu_write addr value }

/-- `CPU.get_status_byte`. -/
def get_status_byte (c : CPUState) : Nat :=
  (c.N <<< 7) ||| (c.V <<< 6) ||| (1 <<< 5) ||| (c.B <<< 4) ||| (c.D <<< 3) |||
    (c.I <<< 2) ||| (c.Z <<< 1) ||| c.C

/-- `CPU.set_status_byte` (does not touch bit 5). -/
def set_status_byte (c : CPUState) (value : Nat) : CPUState :=
  { c with N := (value >>> 7) % 2, V := (value >>> 6) % 2, B := (value >>> 4) % 2,
           D := (value >>> 3) % 2, I := (value >>> 2) % 2, Z := (value >>> 1) % 2,
           C := value % 2 }

/-- `CPU.push_stack`.  `(S - 1) & 0xFF` is `(S + 255) % 256` on `Nat`. -/
def push_stack (m : Machine) (value : Nat) : Machine :=
  let m := mem_write m (0x100 + m.cpu.S) value
  { m with cpu := { m.cpu with S := (m.cpu.S + 255) % 256 } }

/-- `CPU.pop_stack`. -/
def pop_stack (m : Machine) : Nat × Machine :=
  let m := { m with cpu := { m.cpu with S := (m.cpu.S + 1) % 256 } }
  mem_read m (0x100 + m.cpu.S)

/-- `CPU.trigger_interrupt`: NMI always latches; IRQ latches unless an
NMI is already pending; any other kind is ignored. -/
def trigger_interrupt (m : Machine) (kind : IrqKind) : Machine :=
  match kind with
  | .nmi =>
    { m with cpu := { m.cpu with interrupt_pending := some .nmi, interrupt_state := 0 } }
  | .irq =>
    if m.cpu.interrupt_pending ≠ some IrqKind.nmi then
      { m with cpu := { m.cpu with interrupt_pending := some .irq } }
    else m
  | .rst => m

/-- `CPU._handle_interrupt`: push PC (high, low) and the status byte
with bits 4 and 5 rewritten (`& 0xCF`, then `| 0x20`), set `I` and the
effective inhibit, and load PC from the interrupt vector. -/
def handle_interrupt (m : Machine) : Machine :=
  match m.cpu.interrupt_pending with
  | none => m
  | some k =>
    let vector : Nat :=
      match k with
      | .nmi => 0xFFFA
      | .irq => 0xFFFE
      | .rst => 0xFFFC
    let m := push_stack m ((m.cpu.PC >>> 8) &&& 0xFF)
    let m := push_stack m (m.cpu.PC &&& 0xFF)
    let status := (get_status_byte m.cpu &&& 0xCF) ||| 0x20
    let m := push_stack m status
    let m := { m with cpu := { m.cpu with I := 1, interrupt_inhibit := 1 } }
    let lo := mem_read m vector
    let hi := mem_read lo.2 (vector + 1)
    { hi.2 with
      cpu := { hi.2.cpu with
                 PC := (hi.1 <<< 8) ||| lo.1,
                 interrupt_pending := none } }

/-! ## Instruction decoding and execution (`cpu.py`) -/

/-- The addressing modes of the embedded opcode subset. -/
inductive AddrMode where
  | implied
  | relative
deriving DecidableEq

/-- The instructions of the embedded opcode subset. -/
inductive Instr where
  | brk | rti | plp | cli | sei | nop
  | bpl | bmi | bvc | bvs | bcc | bcs | bne | beq
deriving DecidableEq

/-- Whether an instruction is one of the eight conditional branches
(the list `["BPL", ..., "BEQ"]` tested in `run_instruction`). -/
def Instr.is_branch : Instr → Bool
  | .bpl | .bmi | .bvc | .bvs | .bcc | .bcs | .bne | .beq => true
  | _ => false

/-- The restriction of the `CPU.instructions` dictionary to the opcodes
the claims exercise (entries are `(instruction, addressing_mode,
length)`; the table's fourth component is never read).  Every other
opcode is mapped to `none`: in the source an opcode missing from the
dictionary takes the early `return base_cycles` path, and the theorems
below only ever fetch opcodes from this subset or take that path (or
the interrupt-service path, which returns before the table is
consulted). -/
def instructions (opcode : Nat) : Option (Instr × AddrMode × Nat) :=
  if opcode = 0x00 then some (.brk, .implied, 1)
  else if opcode = 0x40 then some (.rti, .implied, 1)
  else if opcode = 0x28 then some (.plp, .implied, 1)
  else if opcode = 0x58 then some (.cli, .implied, 1)
  else if opcode = 0x78 then some (.sei, .implied, 1)
  else if opcode = 0xEA then some (.nop, .implied, 1)
  else if opcode = 0x10 then some (.bpl, .relative, 2)
  else if opcode = 0x30 then some (.bmi, .relative, 2)
  else if opcode = 0x50 then some (.bvc, .relative, 2)
  else if opcode = 0x70 then some (.bvs, .relative, 2)
  else if opcode = 0x90 then some (.bcc, .relative, 2)
  else if opcode = 0xB0 then some (.bcs, .relative, 2)
  else if opcode = 0xD0 then some (.bne, .relative, 2)
  else if opcode = 0xF0 then some (.beq, .relative, 2)
  else none

/-- `CPU.cycle_lookup`: base cycle count per opcode, 16 rows of 16. -/
def cycle_lookup : List Nat :=
  [7,6,2,8,3,3,5,5,3,2,2,2,4,4,6,6,
   2,5,2,8,4,4,6,6,2,4,2,7,4,4,7,7,
   6,6,2,8,3,3,5,5,4,2,2,2,4,4,6,6,
   2,5,2,8,4,4,6,6,2,4,2,7,4,4,7,7,
   6,6,2,8,3,3,5,5,3,2,2,2,3,4,6,6,
   2,5,2,8,4,4,6,6,2,4,2,7,4,4,7,7,
   6,6,2,8,3,3,5,5,4,2,2,2,5,4,6,6,
   2,5,2,8,4,4,6,6,2,4,2,7,4,4,7,7,
   2,6,2,6,3,3,3,3,2,2,2,2,4,4,4,4,
   2,6,2,6,4,4,4,4,2,5,2,5,5,5,5,5,
   2,6,2,6,3,3,3,3,2,2,2,2,4,4,4,4,
   2,5,2,5,4,4,4,4,2,4,2,4,4,4,4,4,
   2,6,2,8,3,3,5,5,2,2,2,2,4,4,6,6,
   2,5,2,8,4,4,6,6,2,4,2,7,4,4,7,7,
   2,6,2,8,3,3,5,5,2,2,2,2,4,4,6,6,
   2,5,2,8,4,4,6,6,2,4,2,7,4,4,7,7]

/-- `CPU._page_crossed`. -/
def page_crossed (a1 a2 : Nat) : Bool := a1 &&& 0xFF00 != a2 &&& 0xFF00

/-- `CPU._get_address_with_page_crossing_info` restricted to the
addressing modes of the embedded subset.  Returns the operand address
(`none` for implied), the page-crossing penalty (`0` in both branches,
exactly as in the source) and the mutated machine.  The implied branch
performs the dummy `memory.read(PC)`; the relative branch converts an
offset with bit 7 set to a negative displacement — on `Nat` the
Python `(PC + offset) & 0xFFFF` with `offset - 256` becomes
`(PC + offset + 0xFF00) % 0x10000`. -/
def get_address (m : Machine) (mode : AddrMode) : Option Nat × Nat × Machine :=
  match mode with
  | .implied =>
    let r := mem_read m m.cpu.PC
    (none, 0, r.2)
  | .relative =>
    let r := mem_read m m.cpu.PC
    let m := r.2
    let pc1 := (m.cpu.PC + 1) % 0x10000
    let m := { m with cpu := { m.cpu with PC := pc1 } }
    let addr :=
      if r.1 &&& 0x80 ≠ 0 then (pc1 + r.1 + 0xFF00) % 0x10000
      else (pc1 + r.1) % 0x10000
    (some addr, 0, m)

/-- The branch-condition table of `CPU._prepare_branch`
(`conditions.get(instruction, False)`); the per-opcode
`execute_bpl` … `execute_beq` methods test the identical flag
condition. -/
def branch_cond (c : CPUState) : Instr → Bool
  | .bpl => c.N = 0
  | .bmi => c.N = 1
  | .bvc => c.V = 0
  | .bvs => c.V = 1
  | .bcc => c.C = 0
  | .bcs => c.C = 1
  | .bne => c.Z = 0
  | .beq => c.Z = 1
  | _ => false

/-- `CPU.execute_bpl` … `CPU.execute_beq`: if the branch condition
holds, load the operand into PC. -/
def execute_branch (m : Machine) (i : Instr) (address : Nat) : Machine :=
  if branch_cond m.cpu i then { m with cpu := { m.cpu with PC := address } } else m

/-- `CPU._prepare_branch`.  Called by `run_instruction` after the
execute method has already run: when the branch was taken, `self.PC`
already equals `address`, so `old_pc` here is the branch target, not
the fall-through address. -/
def prepare_branch (m : Machine) (i : Instr) (address : Nat) : Nat × Machine :=
  if branch_cond m.cpu i then
    let old_pc := m.cpu.PC
    let m := { m with cpu := { m.cpu with PC := address } }
    let extra := 1 + (if page_crossed old_pc address then 1 else 0)
    (extra, m)
  else (0, m)

/-- `CPU.execute_cli`: clear the visible I flag immediately and arm the
one-instruction recognition delay (`interrupt_delay_value` records
`self.I` after the assignment, i.e. `0`). -/
def execute_cli (m : Machine) : Machine :=
  { m with
    cpu := { m.cpu with
               I := 0,
               interrupt_delay_counter := 1,
               interrupt_delay_pending := true,
               interrupt_delay_value := some 0 } }

/-- `CPU.execute_sei`: set the visible I flag immediately and arm the
one-instruction recognition delay. -/
def execute_sei (m : Machine) : Machine :=
  { m with
    cpu := { m.cpu with
               I := 1,
               interrupt_delay_counter := 1,
               interrupt_delay_pending := true,
               interrupt_delay_value := some 1 } }

/-- `CPU.execute_plp`: pop the status byte, apply it with bits 4 and 5
preserved from the current status, and if the I bit changed arm the
one-instruction recognition delay. -/
def execute_plp (m : Machine) : Machine :=
  let st := pop_stack m
  let m := st.2
  let old_i := m.cpu.I
  let new_i := (st.1 >>> 2) % 2
  let temp := andn st.1 0x30 ||| (get_status_byte m.cpu &&& 0x30)
  let m := { m with cpu := set_status_byte m.cpu temp }
  if new_i ≠ old_i then
    { m with
      cpu := { m.cpu with
                 I := new_i,
                 interrupt_delay_counter := 1,
                 interrupt_delay_pending := true,
                 interrupt_delay_value := some new_i } }
  else
    { m with cpu := { m.cpu with I := new_i, interrupt_delay_value := some new_i } }

/-- `CPU.execute_rti`: pop status (bits 4 and 5 preserved from the
current status), update the effective inhibit from I immediately, then
pop the return address. -/
def execute_rti (m : Machine) : Machine :=
  let st := pop_stack m
  let m := st.2
  let m := { m with cpu :=
      set_status_byte m.cpu (andn st.1 0x30 ||| (get_status_byte m.cpu &&& 0x30)) }
  let m := { m with cpu := { m.cpu with interrupt_inhibit := m.cpu.I } }
  let lo := pop_stack m
  let hi := pop_stack lo.2
  { hi.2 with cpu := { hi.2.cpu with PC := (hi.1 <<< 8) ||| lo.1 } }

/-- First half of `CPU.execute_brk`: skip the padding byte and push
PC (so the pushed address is the BRK address plus 2). -/
def brk_push_pc (m : Machine) : Machine :=
  let m := { m with cpu := { m.cpu with PC := (m.cpu.PC + 1) % 0x10000 } }
  let m := push_stack m ((m.cpu.PC >>> 8) &&& 0xFF)
  push_stack m (m.cpu.PC &&& 0xFF)

/-- Second half of `CPU.execute_brk` (both branches share it, with
`vector` equal to `$FFFA` or `$FFFE`): push the status with bits 4 and
5 set, set I and the effective inhibit, and load PC from the vector. -/
def brk_vector (m : Machine) (vector : Nat) : Machine :=
  let m := push_stack m (get_status_byte m.cpu ||| 0x30)
  let m := { m with cpu := { m.cpu with I := 1, interrupt_inhibit := 1 } }
  let lo := mem_read m vector
  let hi := mem_read lo.2 (vector + 1)
  { hi.2 with cpu := { hi.2.cpu with PC := (hi.1 <<< 8) ||| lo.1 } }

/-- `CPU.execute_brk`: push PC + 1 and the status with B set; if an NMI
is pending at this moment, vector to `$FFFA/$FFFB` and clear it (NMI
hijack), otherwise vector to `$FFFE/$FFFF`.  (The source clears
`interrupt_pending` before the vector reads; the reads do not touch
it, so clearing it after `brk_vector` is the same state.) -/
def execute_brk (m : Machine) : Machine :=
  let m := brk_push_pc m
  if m.cpu.interrupt_pending = some IrqKind.nmi then
    let m2 := brk_vector m 0xFFFA
    { m2 with cpu := { m2.cpu with interrupt_pending := none } }
  else
    brk_vector m 0xFFFE

/-- The `instruction_dispatch` call in `run_instruction`, restricted to
the embedded subset.  `execute_nop` with implied addressing does
nothing; every embedded executor returns `None`, so `extra_cycles` is
always `0`.  A branch instruction whose operand were `none` cannot
arise (the table pairs every branch with relative addressing, which
always produces an address). -/
def dispatch_instr (m : Machine) (i : Instr) (address : Option Nat) : Machine :=
  match i with
  | .brk => execute_brk m
  | .rti => execute_rti m
  | .plp => execute_plp m
  | .cli => execute_cli m
  | .sei => execute_sei m
  | .nop => m
  | i =>
    match address with
    | some a => execute_branch m i a
    | none => m

/-- `CPU.run_instruction`: apply the deferred interrupt-recognition
change at the instruction boundary, fetch the opcode, service a
pending interrupt (NMI always; IRQ only when the effective inhibit is
clear AND no delay was active when the instruction started; never when
the fetched opcode is BRK), otherwise decode and execute.  Returns the
total cycle count and the mutated machine. -/
def run_instruction (m0 : Machine) : Nat × Machine :=
  let delay_was_active := m0.cpu.interrupt_delay_counter > 0
  let m :=
    if m0.cpu.interrupt_delay_counter > 0 then
      let c1 := m0.cpu.interrupt_delay_counter - 1
      let cpu := { m0.cpu with
                     interrupt_delay_counter := c1,
                     interrupt_delay_pending := decide (c1 > 0) }
      let cpu := if c1 = 0 then { cpu with interrupt_inhibit := cpu.I } else cpu
      { m0 with cpu := cpu }
    else m0
  let r := mem_read m m.cpu.PC
  let opcode := r.1
  let m := r.2
  let m := { m with cpu := { m.cpu with PC := (m.cpu.PC + 1) % 0x10000 } }
  if m.cpu.interrupt_pending ≠ none ∧ m.cpu.interrupt_state = 0 ∧ opcode ≠ 0x00 ∧
      (m.cpu.interrupt_pending = some IrqKind.nmi ∨
        (m.cpu.interrupt_pending = some IrqKind.irq ∧
          m.cpu.interrupt_inhibit = 0 ∧ ¬ delay_was_active)) then
    let m := handle_interrupt m
    (7, { m with cpu := { m.cpu with interrupt_pending := none, interrupt_state := 0 } })
  else
    let base_cycles := cycle_lookup.getD opcode 0
    match instructions opcode with
    | none => (base_cycles, m)
    | some (instr, mode, _len) =>
      let ga := get_address m mode
      let address := ga.1
      let penalty := ga.2.1
      let m := ga.2.2
      let m := dispatch_instr m instr address
      let bc :=
        if instr.is_branch then
          match address with
          | some a => prepare_branch m instr a
          | none => (0, m)
        else (0, m)
      (base_cycles + bc.1 + penalty, bc.2)

/-- `CPU.step`: one CPU clock.  Flips the odd-cycle parity, counts the
total, burns a DMA stall cycle or an in-progress instruction cycle if
any, otherwise runs a whole instruction and stores its remaining
cycles. -/
def cpu_step (m : Machine) : Machine :=
  let m := { m with
               cpu := { m.cpu with
                          odd_cycle := 1 - m.cpu.odd_cycle,
                          total_cycles := m.cpu.total_cycles + 1 } }
  if m.cpu.dma_cycles > 0 then
    { m with cpu := { m.cpu with dma_cycles := m.cpu.dma_cycles - 1 } }
  else if m.cpu.cycles > 0 then
    { m with cpu := { m.cpu with cycles := m.cpu.cycles - 1 } }
  else
    let r := run_instruction m
    { r.2 with cpu := { r.2.cpu with cycles := r.1 - 1 } }

/-! ## Initial states (`PPU.__init__`, `CPU.__init__`) and concrete
machines used as counterexamples -/

/-- The field values assigned by `PPU.__init__` (region NTSC, no
cartridge attached; byte arrays start at 0, secondary OAM at `0xFF`). -/
def init_ppu : PPUState where
  ctrl := 0
  mask := 0
  status := 0
  oam_addr := 0
  v := 0
  t := 0
  x := 0
  w := 0
  vram := fun _ => 0
  palette_ram := fun _ => 0
  oam := fun _ => 0
  scanline := 0
  cycle := 0
  frame := 0
  nt_byte := 0
  at_byte := 0
  bg_low_byte := 0
  bg_high_byte := 0
  bg_shift_pattern_low := 0
  bg_shift_pattern_high := 0
  bg_shift_attrib_low := 0
  bg_shift_attrib_high := 0
  sprite_count := 0
  secondary_oam := fun _ => 0xFF
  prep_sprite_indices := fun _ => 0
  sprite_shift_low := fun _ => 0
  sprite_shift_high := fun _ => 0
  sprite_latch_attr := fun _ => 0
  sprite_latch_x := fun _ => 0
  sprite_is_sprite0 := fun _ => false
  sprite_zero_hit := false
  sprite_overflow := false
  screen := fun _ => 0
  render := false
  buffer := 0
  bus := 0
  bus_decay_timer := fun _ => 0
  sprite_eval_index := 0
  sprite_pattern_buffer_low := fun _ => 0
  sprite_pattern_buffer_high := fun _ => 0
  pending_sprite_count := 0
  pending_sprite_indices := fun _ => 0
  pending_sprite_attr := fun _ => 0
  pending_sprite_x := fun _ => 0
  pending_sprite_is_sprite0 := fun _ => false
  use_new_sprite_pipeline := true
  sprite_row_experiment := true
  sprite_alt_row_hits := 0
  bg_shift_post_render := true
  region_ntsc := true
  has_cartridge := false
  chr_writable := false
  name_table_map := fun _ => 0
  chr := fun _ => 0

/-- The field values assigned by `CPU.__init__`. -/
def init_cpu : CPUState where
  A := 0
  X := 0
  Y := 0
  PC := 0
  S := 0xFD
  C := 0
  Z := 0
  I := 1
  D := 0
  B := 0
  V := 0
  N := 0
  cycles := 0
  dma_cycles := 0
  total_cycles := 0
  odd_cycle := 0
  interrupt_pending := none
  interrupt_state := 0
  interrupt_inhibit := 1
  interrupt_delay_counter := 0
  interrupt_delay_pending := false
  interrupt_delay_value := none
  branch_pending := false

/-! ## C4: branch cycle counting -/

/-- An NROM cartridge whose PRG ROM holds `BNE $7F` at `$80F0`. -/
def c4_cart : CartState where
  prg_rom := fun a => if a = 0xF0 then 0xD0 else if a = 0xF1 then 0x7F else 0
  prg_rom_size := 2
  prg_ram := fun _ => 0

/-- A machine about to execute the `BNE` at `$80F0` with `Z = 0`
(branch taken). -/
def c4_machine : Machine where
  cpu := { init_cpu with PC := 0x80F0 }
  ram := fun _ => 0
  bus := 0
  controller1 := 0
  controller2 := 0
  controller1_shift := 0
  controller2_shift := 0
  controller1_index := 0
  controller2_index := 0
  strobe := 0
  ppu := init_ppu
  cart := c4_cart

/-- A cartridge whose NMI vector is `$8234` and whose BRK vector is
`$9000`. -/
def c9_cart : CartState where
  prg_rom := fun a =>
    if a = 0x7FFA then 0x34 else if a = 0x7FFB then 0x82
    else if a = 0x7FFE then 0x00 else if a = 0x7FFF then 0x90 else 0
  prg_rom_size := 2
  prg_ram := fun _ => 0

/-- A machine executing the BRK at `$8000` (PC already past the opcode)
with an NMI already latched. -/
def c9_machine : Machine where
  cpu := { init_cpu with PC := 0x8001, interrupt_pending := some IrqKind.nmi }
  ram := fun _ => 0
  bus := 0
  controller1 := 0
  controller2 := 0
  controller1_shift := 0
  controller2_shift := 0
  controller1_index := 0
  controller2_index := 0
  strobe := 0
  ppu := init_ppu
  cart := c9_cart

/-- The post-reset machine with VBlank set in PPUSTATUS (the state in
which the self-modifying slow-path reads are visible). -/
def c3_machine : Machine where
  cpu := init_cpu
  ram := fun _ => 0
  bus := 0
  controller1 := 0
  controller2 := 0
  controller1_shift := 0
  controller2_shift := 0
  controller1_index := 0
  controller2_index := 0
  strobe := 0
  ppu := { init_ppu with status := 0x80 }
  cart := { prg_rom := fun _ => 0, prg_rom_size := 2, prg_ram := fun _ => 0 }

/-! ## C8: MMC3 (`Mapper4`) IRQ counter -/

/-- The IRQ-related state of `Mapper4` (`memory.py`).  The banking
registers (`bank_select`, `bank_regs`, `prg_mode`, `chr_mode`,
`prg_map`, `chr_map`) are independent of the IRQ machinery — no IRQ
path reads them — and are omitted. -/
structure Mapper4State where
  irq_latch : Nat
  irq_counter : Nat
  irq_reload : Bool
  irq_enabled : Bool
  prev_a12 : Nat
  last_a12_cycle : Nat

/-- `Mapper4.clock_irq`.  Returns the new state and whether
`trigger_interrupt("IRQ")` was invoked (counter reached 0 after the
reload-or-decrement and IRQs are enabled). -/
def clock_irq (s : Mapper4State) : Mapper4State × Bool :=
  let s :=
    if s.irq_counter = 0 ∨ s.irq_reload then
      { s with irq_counter := if s.irq_latch ≠ 0 then s.irq_latch else 0x100,
               irq_reload := false }
    else { s with irq_counter := s.irq_counter - 1 }
  (s, decide (s.irq_counter = 0) && s.irq_enabled)

/-- The A12 edge filter of `Mapper4.ppu_read` (pattern-table fetches,
`addr < $2000`): a rising edge of bit 12 clocks the IRQ counter only
when at least 3 CPU cycles have passed since the last accepted edge.
Returns the new state and whether an IRQ was asserted. -/
def a12_step (s : Mapper4State) (addr cpu_cycles : Nat) : Mapper4State × Bool :=
  let a12 := (addr >>> 12) &&& 1
  let r :=
    if s.prev_a12 = 0 ∧ a12 = 1 then
      if cpu_cycles - s.last_a12_cycle ≥ 3 then
        let c := clock_irq s
        ({ c.1 with last_a12_cycle := cpu_cycles }, c.2)
      else (s, false)
    else (s, false)
  ({ r.1 with prev_a12 := a12 }, r.2)

/-- The `$C000`–`$FFFF` half of `Mapper4.cpu_write` (the IRQ
registers; lower addresses touch only the omitted banking state). -/
def mapper4_write (s : Mapper4State) (addr _value : Nat) : Mapper4State :=
  if 0xC000 ≤ addr ∧ addr ≤ 0xDFFF then
    if addr % 2 = 0 then { s with irq_latch := _value }
    else { s with irq_reload := true }
  else if 0xE000 ≤ addr ∧ addr ≤ 0xFFFF then
    if addr % 2 = 0 then { s with irq_enabled := false }
    else { s with irq_enabled := true }
  else s

/-- `n` accepted A12 rising edges, each clocking the IRQ counter. -/
def clock_iter (s : Mapper4State) : Nat → Mapper4State
  | 0 => s
  | n + 1 => (clock_irq (clock_iter s n)).1

/-- Latch 1, counter 0, IRQs enabled: the claim expects an IRQ on the
first accepted edge; the code fires only on the second. -/
def c8_state : Mapper4State where
  irq_latch := 1
  irq_counter := 0
  irq_reload := false
  irq_enabled := true
  prev_a12 := 0
  last_a12_cycle := 0

/-- Latch 3 for the witness. -/
def c8_state3 : Mapper4State where
  irq_latch := 3
  irq_counter := 0
  irq_reload := false
  irq_enabled := true
  prev_a12 := 0
  last_a12_cycle := 0

/-! ## C5: `NES.step_frame` safety ceiling -/

/-- The `while not self.ppu.render` loop of `NES.step_frame`
(`nes.py`), abstracted over the machine type `α` and the operations the
loop body uses: `step` is `NES.step` (one CPU cycle plus its PPU/APU
cycles), `render` reads `self.ppu.render`, `scanline`/`cycle` read the
PPU position, `bump` is the oscillation escape `self.ppu.cycle += 1`,
and `force_render` is the safety-break `self.ppu.render = True`.
`fuel` is a structural bound on the remaining iterations; the caller
passes `89001`, and the invariant `count + fuel = 89001` makes the
`fuel = 0` branch unreachable, so the function computes exactly the
source loop. -/
def step_frame_loop {α : Type} (step : α → α) (render : α → Bool)
    (scanline cycle : α → Nat) (bump force_render : α → α) :
    Nat → Nat → Int → Int → Nat → α → α × Nat
  | fuel, count, lsl, lcy, osc, s =>
    if render s then (s, count)
    else
      match fuel with
      | 0 => (s, count)
      | fuel' + 1 =>
        let s := step s
        let count := count + 1
        let next :
            α × Int × Int × Nat :=
          if ((scanline s : Nat) : Int) = lsl ∧ ((cycle s : Nat) : Int) = lcy then
            if osc + 1 > 100 then (bump s, lsl, lcy, 0)
            else (s, lsl, lcy, osc + 1)
          else (s, ((scanline s : Nat) : Int), ((cycle s : Nat) : Int), 0)
        if count > 89000 then (force_render next.1, count)
        else step_frame_loop step render scanline cycle bump force_render
          fuel' count next.2.1 next.2.2.1 next.2.2.2 next.1

/-- `NES.step_frame`: clear the render flag and run the loop with
`step_count = 0`, `last_scanline = last_cycle = -1`, and zero
oscillation counter.  Returns the final machine and the step count. -/
def step_frame {α : Type} (step : α → α) (render : α → Bool)
    (scanline cycle : α → Nat) (bump force_render clear_render : α → α)
    (s : α) : α × Nat :=
  step_frame_loop step render scanline cycle bump force_render
    89001 0 (-1) (-1) 0 (clear_render s)

/-! ## C6: the PPU `step` function (`ppu.py`) -/

/-- `PPU.reverse_byte`. -/
def reverse_byte (b : Nat) : Nat :=
  let b := ((b &&& 0xF0) >>> 4) ||| ((b &&& 0x0F) <<< 4)
  let b := ((b &&& 0xCC) >>> 2) ||| ((b &&& 0x33) <<< 2)
  ((b &&& 0xAA) >>> 1) ||| ((b &&& 0x55) <<< 1)

/-- The 64-entry NES colour table built by `PPU.__init__`: the
hard-coded ARGB values, each already converted to ABGR
(`(a << 24) | (b << 16) | (g << 8) | r`). -/
def nes_palette : List Nat :=
  [0xFF666666, 0xFF882A00, 0xFFA71214, 0xFFA4003B,
   0xFF7E005C, 0xFF40006E, 0xFF00066C, 0xFF001D56,
   0xFF003533, 0xFF00480B, 0xFF005200, 0xFF084F00,
   0xFF4D4000, 0xFF000000, 0xFF000000, 0xFF000000,
   0xFFADADAD, 0xFFD95F15, 0xFFFF4042, 0xFFFE2775,
   0xFFCC1AA0, 0xFF7B1EB7, 0xFF2031B5, 0xFF004E99,
   0xFF006D6B, 0xFF008738, 0xFF00930C, 0xFF328F00,
   0xFF8D7C00, 0xFF000000, 0xFF000000, 0xFF000000,
   0xFFFFFEFF, 0xFFFFB064, 0xFFFF9092, 0xFFFF76C6,
   0xFFFF6AF3, 0xFFCC6EFE, 0xFF7081FE, 0xFF229EEA,
   0xFF00BEBC, 0xFF00D888, 0xFF30E45C, 0xFF82E045,
   0xFFDECD48, 0xFF4F4F4F, 0xFF000000, 0xFF000000,
   0xFFFFFEFF, 0xFFFFDFC0, 0xFFFFD2D3, 0xFFFFC8E8,
   0xFFFFC2FB, 0xFFEAC4FE, 0xFFC5CCFE, 0xFFA5D8F7,
   0xFF94E5E4, 0xFF96EFCF, 0xFFABF4BD, 0xFFCCF3B3,
   0xFFF2EBB5, 0xFFB8B8B8, 0xFF000000, 0xFF000000]

/-- `int(c * 1.1)` capped at 255, as in the colour-emphasis branch of
`PPU.render_pixel`.  For every byte `0 ≤ c ≤ 255` the float expression
`int(c * 1.1)` equals `c * 11 / 10` exactly (checked exhaustively), so
the integer form is used. -/
def emphasize_channel (c : Nat) : Nat := min 255 (c * 11 / 10)

namespace PPUState

/-- The body of `PPU.increment_y` as a pure transform of `v`
(`increment_y` reads and writes only `self.v`).  `FINE_Y = $7000`,
`COARSE_Y = $3E0`. -/
def yInc (v : Nat) : Nat :=
  if v &&& 0x7000 ≠ 0x7000 then v + 0x1000
  else
    let v := andn v 0x7000
    let coarse_y := (v &&& 0x3E0) >>> 5
    let r : Nat × Nat :=
      if coarse_y = 29 then (0, v ^^^ 0x800)
      else if coarse_y = 31 then (0, v)
      else (coarse_y + 1, v)
    andn r.2 0x3E0 ||| (r.1 <<< 5)

/-- `PPU.increment_y`. -/
def increment_y (p : PPUState) : PPUState := { p with v := yInc p.v }

/-- `PPU.copy_x` (`HORIZONTAL_BITS = $41F`). -/
def copy_x (p : PPUState) : PPUState :=
  { p with v := andn p.v 0x41F ||| (p.t &&& 0x41F) }

/-- `PPU.copy_y` (`VERTICAL_BITS = $7BE0`). -/
def copy_y (p : PPUState) : PPUState :=
  { p with v := andn p.v 0x7BE0 ||| (p.t &&& 0x7BE0) }

/-- `PPU.increment_x` (`COARSE_X = $1F`). -/
def increment_x (p : PPUState) : PPUState :=
  if p.v &&& 0x1F = 31 then { p with v := andn p.v 0x1F ^^^ 0x400 }
  else { p with v := p.v + 1 }

/-- `PPU.fetch_background_data` (`BG_TABLE = $10`). -/
def fetch_background_data (p : PPUState) : PPUState :=
  let cit := (p.cycle - 1) % 8
  if cit = 0 then
    let r := p.read_vram (0x2000 ||| (p.v &&& 0xFFF))
    { r.2 with nt_byte := r.1 }
  else if cit = 2 then
    let r := p.read_vram
      (0x23C0 ||| (p.v &&& 0x0C00) ||| ((p.v >>> 4) &&& 0x38) ||| ((p.v >>> 2) &&& 0x07))
    { r.2 with at_byte := r.1 }
  else if cit = 4 then
    let pa := p.nt_byte * 16 + ((p.v >>> 12) &&& 0x7)
    let pa := if p.ctrl &&& 0x10 ≠ 0 then pa + 0x1000 else pa
    let r := p.read_vram pa
    { r.2 with bg_low_byte := r.1 }
  else if cit = 6 then
    let pa := p.nt_byte * 16 + ((p.v >>> 12) &&& 0x7) + 8
    let pa := if p.ctrl &&& 0x10 ≠ 0 then pa + 0x1000 else pa
    let r := p.read_vram pa
    { r.2 with bg_high_byte := r.1 }
  else if cit = 7 then
    let attr_bits := (p.at_byte >>> (((p.v >>> 4) &&& 4) ||| (p.v &&& 2))) &&& 0x3
    let attr_low := if attr_bits &&& 1 ≠ 0 then 0xFF else 0
    let attr_high := if attr_bits &&& 2 ≠ 0 then 0xFF else 0
    { p with
      bg_shift_pattern_low := (p.bg_shift_pattern_low &&& 0x00FF) ||| (p.bg_low_byte <<< 8),
      bg_shift_pattern_high := (p.bg_shift_pattern_high &&& 0x00FF) ||| (p.bg_high_byte <<< 8),
      bg_shift_attrib_low := (p.bg_shift_attrib_low &&& 0x00FF) ||| (attr_low <<< 8),
      bg_shift_attrib_high := (p.bg_shift_attrib_high &&& 0x00FF) ||| (attr_high <<< 8) }
  else p

/-- `PPU.render_background` (pure; mask bits `SHOW_BG = $08`,
`SHOW_BG_8 = $02`). -/
def render_background (p : PPUState) : Nat :=
  if p.mask &&& 0x08 = 0 then 0
  else
    let x := p.cycle - 1
    if x < 8 ∧ p.mask &&& 0x02 = 0 then 0
    else
      let fine_x := p.x &&& 0x7
      let tap := 15 - fine_x
      let pattern_pixel :=
        ((p.bg_shift_pattern_low >>> tap) &&& 1) |||
          (((p.bg_shift_pattern_high >>> tap) &&& 1) <<< 1)
      if pattern_pixel = 0 then 0
      else
        let palette_index :=
          ((p.bg_shift_attrib_low >>> (15 - fine_x)) &&& 1) |||
            (((p.bg_shift_attrib_high >>> (15 - fine_x)) &&& 1) <<< 1)
        pattern_pixel ||| (palette_index <<< 2)

/-- The `for i in range(self.sprite_count)` loop of
`PPU.render_sprites`; `fuel` counts the remaining sprite slots.  A
slot with a live X counter decrements it and moves on; otherwise the
shift registers shift, and the first opaque pixel returns (setting the
sprite-0 hit flag when the overlap conditions hold).  The
`force_sprite0_hit_test` branch is dead (the attribute is never
set). -/
def render_sprites_loop (bg_pix x : Nat) : Nat → Nat → PPUState → Nat × PPUState
  | 0, _, p => (0, p)
  | fuel + 1, i, p =>
    if p.sprite_latch_x i > 0 then
      render_sprites_loop bg_pix x fuel (i + 1)
        { p with sprite_latch_x := fset p.sprite_latch_x i (p.sprite_latch_x i - 1) }
    else
      let attr := p.sprite_latch_attr i
      let pixel_low := (p.sprite_shift_low i >>> 7) &&& 1
      let pixel_high := (p.sprite_shift_high i >>> 7) &&& 1
      let p := { p with
        sprite_shift_low := fset p.sprite_shift_low i ((p.sprite_shift_low i <<< 1) % 0x100),
        sprite_shift_high := fset p.sprite_shift_high i ((p.sprite_shift_high i <<< 1) % 0x100) }
      let pixel := pixel_low ||| (pixel_high <<< 1)
      if pixel = 0 then render_sprites_loop bg_pix x fuel (i + 1) p
      else
        let palette := attr &&& 0x3
        let priority := (attr >>> 5) &&& 1
        let is0 := p.sprite_is_sprite0 i
        let overlap :=
          is0 = true ∧ 0 < pixel ∧ 0 < bg_pix ∧ x < 255 ∧
            p.mask &&& 0x08 ≠ 0 ∧ p.mask &&& 0x10 ≠ 0 ∧ p.status &&& 0x40 = 0 ∧
            ¬(x < 8 ∧ p.mask &&& 0x02 = 0) ∧ ¬(x < 8 ∧ p.mask &&& 0x04 = 0)
        let p :=
          if overlap then { p with status := p.status ||| 0x40, sprite_zero_hit := true }
          else p
        (pixel ||| (palette <<< 2) ||| (priority <<< 5) |||
          ((if is0 then 1 else 0) <<< 6), p)

/-- `PPU.render_sprites` (`SHOW_SPRITE = $10`). -/
def render_sprites (p : PPUState) (bg_pixel : Nat) : Nat × PPUState :=
  if p.mask &&& 0x10 = 0 ∨ p.sprite_count = 0 then (0, p)
  else render_sprites_loop bg_pixel (p.cycle - 1) p.sprite_count 0 p

/-- `PPU.render_pixel`.  When `render_sprites` returns 0 the sprite
components all decode to 0, so the `if sprite_info:` guard of the
source is equivalent to decoding unconditionally. -/
def render_pixel (p : PPUState) : PPUState :=
  let x := p.cycle - 1
  let y := p.scanline
  if 256 ≤ x ∨ 240 ≤ y then p
  else
    let bgraw :=
      if p.mask &&& 0x08 ≠ 0 ∧ (8 ≤ x ∨ p.mask &&& 0x02 ≠ 0) then p.render_background
      else 0
    let bg_palette := bgraw >>> 2
    let bg_pixel := bgraw &&& 0x3
    let sp :=
      if p.mask &&& 0x10 ≠ 0 ∧ (8 ≤ x ∨ p.mask &&& 0x04 ≠ 0) then p.render_sprites bg_pixel
      else (0, p)
    let p := sp.2
    let sprite_pixel := sp.1 &&& 0x3
    let sprite_palette := (sp.1 >>> 2) &&& 0x3
    let sprite_priority := (sp.1 >>> 5) &&& 1
    let palette_addr :=
      if bg_pixel = 0 ∧ sprite_pixel = 0 then 0
      else if bg_pixel = 0 ∧ 0 < sprite_pixel then 0x10 + sprite_palette * 4 + sprite_pixel
      else if 0 < bg_pixel ∧ sprite_pixel = 0 then bg_palette * 4 + bg_pixel
      else if sprite_priority = 0 then 0x10 + sprite_palette * 4 + sprite_pixel
      else bg_palette * 4 + bg_pixel
    let color_index := p.palette_ram palette_addr &&& 0x3F
    let color_index :=
      if p.mask &&& 0x01 ≠ 0 then color_index &&& (0x30 ||| (color_index &&& 0x0F))
      else color_index
    let color := nes_palette.getD color_index 0
    let color :=
      if p.mask &&& 0xE0 ≠ 0 then
        let r := color &&& 0xFF
        let g := (color >>> 8) &&& 0xFF
        let b := (color >>> 16) &&& 0xFF
        let r := if p.mask &&& 0x20 ≠ 0 then emphasize_channel r else r
        let g := if p.mask &&& 0x40 ≠ 0 then emphasize_channel g else g
        let b := if p.mask &&& 0x80 ≠ 0 then emphasize_channel b else b
        (color &&& 0xFF000000) ||| (b <<< 16) ||| (g <<< 8) ||| r
      else color
    { p with screen := fset p.screen (y * 256 + x) color }

/-- The `for slot in range(self.pending_sprite_count)` pattern-fetch
loop at cycle 257 of `PPU._sprite_pipeline_step`.  Row arithmetic uses
`Int` (the Python rows may be negative for stale pending entries); a
negative pattern address reaches `read_vram` masked, exactly as
Python's `& 0x3FFF` on a negative int.  The `try/except` around
`read_vram` is vacuous in the model (the embedded `read_vram` is
total). -/
def sprite_fetch_loop (target sprite_height : Nat) : Nat → Nat → PPUState → PPUState
  | 0, _, p => p
  | fuel + 1, slot, p =>
    let idx := p.pending_sprite_indices slot
    let y := p.oam (idx * 4)
    let base_row : Int := (target : Int) - ((y : Int) + 1)
    let alt_row : Int := (target : Int) - (y : Int)
    let use_alt :=
      p.sprite_row_experiment = true ∧ 0 ≤ alt_row ∧ alt_row < (sprite_height : Int) ∧
        ¬ (0 ≤ base_row ∧ base_row < (sprite_height : Int))
    let row : Int := if use_alt then alt_row else base_row
    let p :=
      if use_alt then { p with sprite_alt_row_hits := p.sprite_alt_row_hits + 1 } else p
    let attr := p.pending_sprite_attr slot
    let row : Int := if attr &&& 0x80 ≠ 0 then ((sprite_height : Int) - 1) - row else row
    let tile := p.oam (idx * 4 + 1)
    let pattern_addr : Int :=
      if sprite_height = 16 then
        let base_tile := tile &&& 0xFE
        let table := tile &&& 1
        let tile_half : Int := if row < 8 then 0 else 1
        let fine_y : Int := row % 8
        ((base_tile : Int) + tile_half) * 16 + fine_y + (table : Int) * 0x1000
      else
        let pa : Int := (tile : Int) * 16 + row
        if p.ctrl &&& 0x08 ≠ 0 then pa + 0x1000 else pa
    let lo := p.read_vram (pattern_addr % 0x4000).toNat
    let hi := lo.2.read_vram ((pattern_addr + 8) % 0x4000).toNat
    let p := hi.2
    let vals :=
      if attr &&& 0x40 ≠ 0 then (reverse_byte lo.1, reverse_byte hi.1) else (lo.1, hi.1)
    sprite_fetch_loop target sprite_height fuel (slot + 1)
      { p with
        sprite_pattern_buffer_low := fset p.sprite_pattern_buffer_low slot vals.1,
        sprite_pattern_buffer_high := fset p.sprite_pattern_buffer_high slot vals.2 }

/-- The cycle-0 commit loop of `PPU._sprite_pipeline_step`. -/
def sprite_commit_loop : Nat → Nat → PPUState → PPUState
  | 0, _, p => p
  | fuel + 1, i, p =>
    sprite_commit_loop fuel (i + 1)
      { p with
        prep_sprite_indices := fset p.prep_sprite_indices i (p.pending_sprite_indices i),
        sprite_shift_low := fset p.sprite_shift_low i (p.sprite_pattern_buffer_low i),
        sprite_shift_high := fset p.sprite_shift_high i (p.sprite_pattern_buffer_high i),
        sprite_latch_attr := fset p.sprite_latch_attr i (p.pending_sprite_attr i),
        sprite_latch_x := fset p.sprite_latch_x i (p.pending_sprite_x i),
        sprite_is_sprite0 := fsetB p.sprite_is_sprite0 i (p.pending_sprite_is_sprite0 i) }

/-- The primary-OAM evaluation phase (cycles 65-256) of
`PPU._sprite_pipeline_step`, factored out. -/
def sprite_eval_step (target sprite_height cyc : Nat) (p0 : PPUState) : PPUState :=
  let p :=
    if cyc = 65 then
      { p0 with sprite_eval_index := 0, pending_sprite_count := 0,
                sprite_overflow := false }
    else p0
  if (cyc - 65) % 8 = 0 ∧ p.pending_sprite_count < 8 ∧ p.sprite_eval_index < 64 then
    let i := p.sprite_eval_index
    let y := p.oam (i * 4)
    let start := y + 1
    let stop := start + sprite_height - 1
    let p :=
      if start ≤ target ∧ target ≤ stop then
        { p with
          pending_sprite_indices :=
            fset p.pending_sprite_indices p.pending_sprite_count i,
          pending_sprite_attr :=
            fset p.pending_sprite_attr p.pending_sprite_count (p.oam (i * 4 + 2)),
          pending_sprite_x :=
            fset p.pending_sprite_x p.pending_sprite_count (p.oam (i * 4 + 3)),
          pending_sprite_is_sprite0 :=
            fsetB p.pending_sprite_is_sprite0 p.pending_sprite_count (decide (i = 0)),
          pending_sprite_count := p.pending_sprite_count + 1 }
      else p
    { p with sprite_eval_index := p.sprite_eval_index + 1 }
  else if (cyc - 65) % 8 = 0 ∧ 8 ≤ p.pending_sprite_count ∧ p.sprite_eval_index < 64 then
    let i := p.sprite_eval_index
    let y := p.oam (i * 4)
    let start := y + 1
    let stop := start + sprite_height - 1
    let p :=
      if start ≤ target ∧ target ≤ stop then
        { p with status := p.status ||| 0x20, sprite_overflow := true }
      else p
    { p with sprite_eval_index := p.sprite_eval_index + 1 }
  else p

/-- `PPU._sprite_pipeline_step` (`LONG_SPRITE = $20`): prepare the next
scanline one scanline ahead — clear secondary OAM on cycles 1-64,
evaluate primary OAM on 65-256 (`sprite_eval_step`), fetch pattern
rows at 257, and commit the pending buffers at cycle 0. -/
def sprite_pipeline_step (p : PPUState) : PPUState :=
  let sl := p.scanline
  let cyc := p.cycle
  if 240 ≤ sl ∧ sl ≠ 261 then p
  else
    let sprite_height := if p.ctrl &&& 0x20 ≠ 0 then 16 else 8
    let target := if sl = 261 then 0 else sl + 1
    if 1 ≤ cyc ∧ cyc ≤ 64 then
      if cyc = 1 then
        { p with secondary_oam := fun i => if i < 32 then 0xFF else p.secondary_oam i,
                 pending_sprite_count := 0 }
      else p
    else if ¬ target < 240 then p
    else if 65 ≤ cyc ∧ cyc ≤ 256 then
      sprite_eval_step target sprite_height cyc p
    else if 257 ≤ cyc ∧ cyc ≤ 320 then
      if cyc = 257 then sprite_fetch_loop target sprite_height p.pending_sprite_count 0 p
      else p
    else if cyc = 0 then
      if sl < 240 ∧ target < 240 then
        let p := { p with sprite_count := p.pending_sprite_count }
        sprite_commit_loop p.sprite_count 0 p
      else p
    else p

/-- The `for i in range(64)` loop of `PPU.prepare_sprites` (legacy
path, `use_new_sprite_pipeline = False`); returns the sprite count,
the overflow flag, and the mutated PPU.  The `break` on the ninth
in-range sprite ends the scan. -/
def prepare_sprites_loop (target sprite_height : Nat) :
    Nat → Nat → Nat → PPUState → Nat × Bool × PPUState
  | 0, _, count, p => (count, false, p)
  | fuel + 1, i, count, p =>
    let y := p.oam (i * 4)
    let tile := p.oam (i * 4 + 1)
    let attr := p.oam (i * 4 + 2)
    let x_pos := p.oam (i * 4 + 3)
    let start := y + 1
    let stop := start + sprite_height - 1
    if target < start ∨ stop < target then
      prepare_sprites_loop target sprite_height fuel (i + 1) count p
    else if count < 8 then
      let row := target - start
      let row := if attr &&& 0x80 ≠ 0 then (sprite_height - 1) - row else row
      let pattern_addr :=
        if sprite_height = 16 then
          let base_tile := tile &&& 0xFE
          let table := tile &&& 1
          let tile_half := if row < 8 then 0 else 1
          (base_tile + tile_half) * 16 + (row &&& 7) + table * 0x1000
        else
          let pa := tile * 16 + row
          if p.ctrl &&& 0x08 ≠ 0 then pa + 0x1000 else pa
      let lo := p.read_vram pattern_addr
      let hi := lo.2.read_vram (pattern_addr + 8)
      let p := hi.2
      let vals :=
        if attr &&& 0x40 ≠ 0 then (reverse_byte lo.1, reverse_byte hi.1)
        else (lo.1, hi.1)
      let p := { p with
        prep_sprite_indices := fset p.prep_sprite_indices count i,
        sprite_shift_low := fset p.sprite_shift_low count vals.1,
        sprite_shift_high := fset p.sprite_shift_high count vals.2,
        sprite_latch_attr := fset p.sprite_latch_attr count attr,
        sprite_latch_x := fset p.sprite_latch_x count x_pos,
        sprite_is_sprite0 := fsetB p.sprite_is_sprite0 count (decide (i = 0)) }
      prepare_sprites_loop target sprite_height fuel (i + 1) (count + 1) p
    else (count, true, p)

/-- `PPU.prepare_sprites` (legacy). -/
def prepare_sprites (p : PPUState) (target : Nat) : PPUState :=
  let sprite_height := if p.ctrl &&& 0x20 ≠ 0 then 16 else 8
  let r := prepare_sprites_loop target sprite_height 64 0 0 p
  let p := { r.2.2 with sprite_count := r.1 }
  if r.2.1 then { p with status := p.status ||| 0x20 }
  else { p with status := andn p.status 0x20 }

/-- The four-register 16-bit background shift of `PPU.step`
(`<<= 1` then `&= 0xFFFF`). -/
def shift_bg (p : PPUState) : PPUState :=
  { p with bg_shift_pattern_low := (p.bg_shift_pattern_low <<< 1) % 0x10000,
           bg_shift_pattern_high := (p.bg_shift_pattern_high <<< 1) % 0x10000,
           bg_shift_attrib_low := (p.bg_shift_attrib_low <<< 1) % 0x10000,
           bg_shift_attrib_high := (p.bg_shift_attrib_high <<< 1) % 0x10000 }

/-- `PPU.step`, one PPU dot.  Constants: `VISIBLE_SCANLINES = 240`,
`VISIBLE_DOTS = 256`, `DOTS_PER_SCANLINE = 341`, `END_DOT = 340`,
`SHOW_BG = $08`, `SHOW_SPRITE = $10`, `V_BLANK = $80`,
`SPRITE_0_HIT = $40`.  The `memory.nes.trigger_nmi()` call inside the
scanline-241 branch acts outside the PPU object and is a no-op in the
standalone configuration (no `nes` attribute on the memory), so only
the `status` bit is modelled. -/
def step (p : PPUState) : PPUState :=
  let p := if p.use_new_sprite_pipeline then sprite_pipeline_step p else p
  let p :=
    if p.scanline < 240 then
      let p :=
        if 0 < p.cycle ∧ p.cycle ≤ 256 then
          let p := if p.mask &&& 0x08 ≠ 0 then fetch_background_data p else p
          let p :=
            if ¬ p.bg_shift_post_render ∧ p.mask &&& 0x08 ≠ 0 then shift_bg p else p
          let p := if p.mask &&& 0x18 ≠ 0 then render_pixel p else p
          let p :=
            if p.bg_shift_post_render ∧ p.mask &&& 0x08 ≠ 0 then shift_bg p else p
          if p.cycle % 8 = 0 ∧ p.mask &&& 0x08 ≠ 0 then increment_x p else p
        else p
      if ¬ p.use_new_sprite_pipeline ∧ p.cycle = 257 then
        let target := p.scanline + 1
        if target = 240 then p
        else if target = 261 then prepare_sprites p 0
        else if target < 240 then prepare_sprites p target
        else p
      else if p.cycle = 257 ∧ p.mask &&& 0x08 ≠ 0 then increment_y p
      else if p.cycle = 258 ∧ p.mask &&& 0x18 ≠ 0 then copy_x p
      else p
    else p
  let prev_scanline := p.scanline
  let prev_cycle := p.cycle
  let p := { p with cycle := p.cycle + 1 }
  let p :=
    if 341 ≤ p.cycle then
      let p := { p with cycle := 0, scanline := p.scanline + 1 }
      if 261 < p.scanline then
        let p := { p with scanline := 0, frame := p.frame + 1, render := true }
        if ¬ p.use_new_sprite_pipeline then prepare_sprites p 0 else p
      else p
    else p
  let p :=
    if 241 ≤ p.scanline ∧ p.scanline ≤ 260 then
      if p.scanline = 241 ∧ p.cycle = 1 then { p with status := p.status ||| 0x80 }
      else p
    else if p.scanline = 261 then
      if p.cycle = 1 then
        { p with status := andn (andn (andn p.status 0x80) 0x40) 0x20 }
      else if 280 ≤ p.cycle ∧ p.cycle ≤ 304 ∧ p.mask &&& 0x18 ≠ 0 then copy_y p
      else if p.cycle = 258 ∧ p.mask &&& 0x18 ≠ 0 then copy_x p
      else if p.cycle = 339 ∧ p.frame % 2 = 1 ∧ p.mask &&& 0x18 ≠ 0 ∧
          p.region_ntsc = true then
        { p with cycle := p.cycle + 1 }
      else p
    else p
  if prev_scanline = p.scanline ∧ prev_cycle = p.cycle then
    { p with cycle := p.cycle + 1 }
  else p

end PPUState

/-- A PPU about to process dot 256 of scanline 0 with only background
rendering enabled and `v = 0`. -/
def c6_ppu : PPUState :=
  { init_ppu with scanline := 0, cycle := 256, mask := 0x08 }

/-- The same PPU entering dot 257. -/
def c6w_ppu : PPUState :=
  { init_ppu with scanline := 0, cycle := 257, mask := 0x08 }

/-- The C1 scenario cartridge: `SEI; CLI; NOP; NOP` at `$8000` with
the IRQ/BRK vector pointing at `$9000`. -/
def c1_cart : CartState where
  prg_rom := fun a =>
    if a = 0x0000 then 0x78
    else if a = 0x0001 then 0x58
    else if a = 0x0002 then 0xEA
    else if a = 0x0003 then 0xEA
    else if a = 0x7FFE then 0x00
    else if a = 0x7FFF then 0x90
    else 0
  prg_rom_size := 2
  prg_ram := fun _ => 0

/-- The C1 scenario machine: about to execute the SEI at `$8000` with
`I = 0` and the effective inhibit clear. -/
def c1_machine : Machine where
  cpu := { init_cpu with PC := 0x8000, I := 0, interrupt_inhibit := 0 }
  ram := fun _ => 0
  bus := 0
  controller1 := 0
  controller2 := 0
  controller1_shift := 0
  controller2_shift := 0
  controller1_index := 0
  controller2_index := 0
  strobe := 0
  ppu := init_ppu
  cart := c1_cart

/-- After the SEI. -/
def c1_after_sei : Machine := (run_instruction c1_machine).2

/-- After the CLI. -/
def c1_after_cli : Nat × Machine := run_instruction c1_after_sei

/-- The IRQ is latched between the CLI and the NOP. -/
def c1_irq : Machine := trigger_interrupt c1_after_cli.2 IrqKind.irq

/-- After the NOP (the IRQ must not be serviced here). -/
def c1_after_nop : Nat × Machine := run_instruction c1_irq

/-- The next instruction boundary (the IRQ is serviced here). -/
def c1_after_next : Nat × Machine := run_instruction c1_after_nop.2

/-- A machine whose next stack pop yields a status byte with the I bit
set while the live I flag is clear (a toggling PLP). -/
def c1_plp_machine : Machine :=
  { c1_machine with ram := fun a => if a = 0x1FE then 0x04 else 0 }

end NEZ

/-! # Theorems about the embedded program -/

namespace NEZ

@[simp] theorem fset_same (f : Nat → Nat) (i v : Nat) : fset f i v i = v := by
  simp [fset]

theorem fset_other (f : Nat → Nat) (i v j : Nat) (h : j ≠ i) : fset f i v j = f j := by
  simp [fset, h]

namespace PPUState

/-- The fold of `refresh_bus_bits` leaves every projection untouched by
`refresh_bus_bit` unchanged. -/
theorem refresh_foldl_proj {α : Type} (g : PPUState → α)
    (hg : ∀ q m v b, g (refresh_bus_bit q m v b) = g q) :
    ∀ (l : List Nat) (p : PPUState) (m v : Nat),
      g (List.foldl (fun q b => refresh_bus_bit q m v b) p l) = g p := by
  intro l
  induction l with
  | nil => intro p m v; rfl
  | cons b l ih => intro p m v; simp only [List.foldl]; rw [ih, hg]

theorem refresh_status (p : PPUState) (m v : Nat) :
    (p.refresh_bus_bits m v).status = p.status :=
  refresh_foldl_proj (fun q => q.status)
    (by intro q m v b; unfold refresh_bus_bit; split <;> rfl) _ p m v

theorem refresh_w (p : PPUState) (m v : Nat) :
    (p.refresh_bus_bits m v).w = p.w :=
  refresh_foldl_proj (fun q => q.w)
    (by intro q m v b; unfold refresh_bus_bit; split <;> rfl) _ p m v

theorem refresh_t (p : PPUState) (m v : Nat) :
    (p.refresh_bus_bits m v).t = p.t :=
  refresh_foldl_proj (fun q => q.t)
    (by intro q m v b; unfold refresh_bus_bit; split <;> rfl) _ p m v

theorem refresh_v (p : PPUState) (m v : Nat) :
    (p.refresh_bus_bits m v).v = p.v :=
  refresh_foldl_proj (fun q => q.v)
    (by intro q m v b; unfold refresh_bus_bit; split <;> rfl) _ p m v

theorem refresh_ctrl (p : PPUState) (m v : Nat) :
    (p.refresh_bus_bits m v).ctrl = p.ctrl :=
  refresh_foldl_proj (fun q => q.ctrl)
    (by intro q m v b; unfold refresh_bus_bit; split <;> rfl) _ p m v

theorem refresh_palette (p : PPUState) (m v : Nat) :
    (p.refresh_bus_bits m v).palette_ram = p.palette_ram :=
  refresh_foldl_proj (fun q => q.palette_ram)
    (by intro q m v b; unfold refresh_bus_bit; split <;> rfl) _ p m v

theorem refresh_vram (p : PPUState) (m v : Nat) :
    (p.refresh_bus_bits m v).vram = p.vram :=
  refresh_foldl_proj (fun q => q.vram)
    (by intro q m v b; unfold refresh_bus_bit; split <;> rfl) _ p m v

theorem refresh_oam (p : PPUState) (m v : Nat) :
    (p.refresh_bus_bits m v).oam = p.oam :=
  refresh_foldl_proj (fun q => q.oam)
    (by intro q m v b; unfold refresh_bus_bit; split <;> rfl) _ p m v

theorem refresh_has_cartridge (p : PPUState) (m v : Nat) :
    (p.refresh_bus_bits m v).has_cartridge = p.has_cartridge :=
  refresh_foldl_proj (fun q => q.has_cartridge)
    (by intro q m v b; unfold refresh_bus_bit; split <;> rfl) _ p m v

theorem refresh_name_table_map (p : PPUState) (m v : Nat) :
    (p.refresh_bus_bits m v).name_table_map = p.name_table_map :=
  refresh_foldl_proj (fun q => q.name_table_map)
    (by intro q m v b; unfold refresh_bus_bit; split <;> rfl) _ p m v

theorem refresh_chr (p : PPUState) (m v : Nat) :
    (p.refresh_bus_bits m v).chr = p.chr :=
  refresh_foldl_proj (fun q => q.chr)
    (by intro q m v b; unfold refresh_bus_bit; split <;> rfl) _ p m v

end PPUState

/-! ## Bitwise helper lemmas -/

theorem andn_and_of_disjoint (n a b : Nat) (h : a &&& b = 0) :
    andn n a &&& b = n &&& b := by
  rw [andn, Nat.and_xor_distrib_right, Nat.and_assoc, h, Nat.and_zero, Nat.xor_zero]

theorem or_and_of_masked (s b A B C : Nat) (hA : A &&& C = C) (hB : B &&& C = 0) :
    ((s &&& A) ||| (b &&& B)) &&& C = s &&& C := by
  rw [Nat.and_distrib_right, Nat.and_assoc, Nat.and_assoc, hA, hB, Nat.and_zero,
    Nat.or_zero]

theorem andn_and_self (n m : Nat) : andn n m &&& m = 0 := by
  rw [andn, Nat.and_xor_distrib_right, Nat.and_assoc, Nat.and_self, Nat.xor_self]

/-! ## C2: the `$2002` (PPUSTATUS) read -/

/-- C2.  A read of `$2002` returns `(status & $E0) | (open_bus & $1F)`
(capturing the pre-clear status), clears only VBlank (bit 7) in `status`,
clears the write toggle `w`, and leaves sprite-0 hit (bit 6) and sprite
overflow (bit 5) unchanged; consequently a second consecutive read
returns a value with bit 7 clear and bits 6 and 5 identical to the first
read's. -/
theorem ppustatus_read_spec (p : PPUState) :
    (p.read_register 0x2002).1 = (p.status &&& 0xE0) ||| (p.bus &&& 0x1F)
    ∧ (p.read_register 0x2002).2.status = andn p.status 0x80
    ∧ (p.read_register 0x2002).2.status &&& 0x40 = p.status &&& 0x40
    ∧ (p.read_register 0x2002).2.status &&& 0x20 = p.status &&& 0x20
    ∧ (p.read_register 0x2002).2.w = 0
    ∧ ((p.read_register 0x2002).2.read_register 0x2002).1 &&& 0x80 = 0
    ∧ ((p.read_register 0x2002).2.read_register 0x2002).1 &&& 0x40
        = (p.read_register 0x2002).1 &&& 0x40
    ∧ ((p.read_register 0x2002).2.read_register 0x2002).1 &&& 0x20
        = (p.read_register 0x2002).1 &&& 0x20 := by
  have hself : ∀ n : Nat, andn n 0x80 &&& 0x80 = 0 := fun n => andn_and_self n 0x80
  have h40 : ∀ n : Nat, andn n 0x80 &&& 0x40 = n &&& 0x40 := fun n =>
    andn_and_of_disjoint n 0x80 0x40 (by decide)
  have h20 : ∀ n : Nat, andn n 0x80 &&& 0x20 = n &&& 0x20 := fun n =>
    andn_and_of_disjoint n 0x80 0x20 (by decide)
  have hmask80 : ∀ s b : Nat, ((s &&& 0xE0) ||| (b &&& 0x1F)) &&& 0x80 = s &&& 0x80 :=
    fun s b => or_and_of_masked s b 0xE0 0x1F 0x80 (by decide) (by decide)
  have hmask40 : ∀ s b : Nat, ((s &&& 0xE0) ||| (b &&& 0x1F)) &&& 0x40 = s &&& 0x40 :=
    fun s b => or_and_of_masked s b 0xE0 0x1F 0x40 (by decide) (by decide)
  have hmask20 : ∀ s b : Nat, ((s &&& 0xE0) ||| (b &&& 0x1F)) &&& 0x20 = s &&& 0x20 :=
    fun s b => or_and_of_masked s b 0xE0 0x1F 0x20 (by decide) (by decide)
  have hbranch : ∀ q : PPUState, q.read_register 0x2002 = PPUState.read_2002 q :=
    fun _ => rfl
  have hst : ∀ q : PPUState, (q.read_register 0x2002).2.status = andn q.status 0x80 := by
    intro q
    rw [hbranch]
    simp only [PPUState.read_2002]
    rw [PPUState.refresh_status]
  have hr : ∀ q : PPUState,
      (q.read_register 0x2002).1 = (q.status &&& 0xE0) ||| (q.bus &&& 0x1F) := by
    intro q
    rw [hbranch]
    simp only [PPUState.read_2002]
  refine ⟨hr p, hst p, ?_, ?_, ?_, ?_, ?_, ?_⟩
  · rw [hst p, h40]
  · rw [hst p, h20]
  · rw [hbranch]
    simp only [PPUState.read_2002]
    rw [PPUState.refresh_w]
  · rw [hr _, hmask80, hst p, hself]
  · rw [hr _, hmask40, hst p, h40, hr p, hmask40]
  · rw [hr _, hmask20, hst p, h20, hr p, hmask20]

theorem write_register_2006 (p : PPUState) (v : Nat) :
    p.write_register 0x2006 v = PPUState.write_2006 (p.refresh_bus_bits 0xFF v) v := by
  simp [PPUState.write_register]

theorem write_register_2007 (p : PPUState) (v : Nat) :
    p.write_register 0x2007 v =
      (((p.refresh_bus_bits 0xFF v)).write_vram (p.refresh_bus_bits 0xFF v).v v).inc_v := by
  simp [PPUState.write_register]

theorem read_register_2007 (p : PPUState) :
    p.read_register 0x2007 = PPUState.read_2007 p := by
  simp [PPUState.read_register]

/-- The effect of a first (`w = 0`) `$2006` write on the fields the
palette probe reads later. -/
theorem w2006_hi_effect (p : PPUState) (v : Nat) (hw : p.w = 0) :
    (p.write_register 0x2006 v).w = 1
    ∧ (p.write_register 0x2006 v).t = (p.t &&& 0x80FF) ||| ((v &&& 0x3F) <<< 8)
    ∧ (p.write_register 0x2006 v).palette_ram = p.palette_ram := by
  rw [write_register_2006]
  refine ⟨?_, ?_, ?_⟩ <;>
    simp [PPUState.write_2006, PPUState.refresh_w, PPUState.refresh_t,
      PPUState.refresh_palette, hw]

/-- The effect of a second (`w = 1`) `$2006` write on the fields the
palette probe reads later. -/
theorem w2006_lo_effect (p : PPUState) (v : Nat) (hw : p.w = 1) :
    (p.write_register 0x2006 v).w = 0
    ∧ (p.write_register 0x2006 v).t = (p.t &&& 0xFF00) ||| v
    ∧ (p.write_register 0x2006 v).v = (p.t &&& 0xFF00) ||| v
    ∧ (p.write_register 0x2006 v).palette_ram = p.palette_ram := by
  rw [write_register_2006]
  refine ⟨?_, ?_, ?_, ?_⟩ <;>
    simp [PPUState.write_2006, PPUState.refresh_w, PPUState.refresh_t,
      PPUState.refresh_v, PPUState.refresh_palette, hw]

/-- `inc_v` only changes the VRAM address `v`. -/
theorem inc_v_effect (p : PPUState) :
    (p.inc_v).w = p.w ∧ (p.inc_v).t = p.t ∧ (p.inc_v).palette_ram = p.palette_ram := by
  unfold PPUState.inc_v
  refine ⟨?_, ?_, ?_⟩ <;> split <;> rfl

/-- `write_vram` on a palette address folds the backdrop mirror pair and
leaves the loopy registers alone. -/
theorem write_vram_palette (p : PPUState) (a v : Nat)
    (h1 : 0x3F00 ≤ a) (h2 : a < 0x4000) :
    (p.write_vram a v).w = p.w
    ∧ (p.write_vram a v).t = p.t
    ∧ (p.write_vram a v).palette_ram =
        (let i := (a - 0x3F00) % 0x20
         if i % 4 = 0 then fset (fset p.palette_ram i v) (i ^^^ 0x10) v
         else fset p.palette_ram i v) := by
  unfold PPUState.write_vram
  have hm : a % 0x4000 = a := Nat.mod_eq_of_lt h2
  simp only [hm]
  rw [if_neg (by omega), if_neg (by omega)]
  by_cases hc : (a - 0x3F00) % 0x20 % 4 = 0
  · rw [if_pos hc, if_pos hc]
    exact ⟨rfl, rfl, rfl⟩
  · rw [if_neg hc, if_neg hc]
    exact ⟨rfl, rfl, rfl⟩

/-- The effect of a `$2007` write whose target address is palette RAM. -/
theorem w2007_palette_effect (p : PPUState) (v : Nat)
    (h1 : 0x3F00 ≤ p.v) (h2 : p.v < 0x4000) :
    (p.write_register 0x2007 v).w = p.w
    ∧ (p.write_register 0x2007 v).t = p.t
    ∧ (p.write_register 0x2007 v).palette_ram =
        (let a := (p.v - 0x3F00) % 0x20
         if a % 4 = 0 then fset (fset p.palette_ram a v) (a ^^^ 0x10) v
         else fset p.palette_ram a v) := by
  rw [write_register_2007]
  have hv : (p.refresh_bus_bits 0xFF v).v = p.v := PPUState.refresh_v p 0xFF v
  rw [hv]
  obtain ⟨hw1, hw2, hw3⟩ := write_vram_palette (p.refresh_bus_bits 0xFF v) p.v v h1 h2
  obtain ⟨hi1, hi2, hi3⟩ := inc_v_effect ((p.refresh_bus_bits 0xFF v).write_vram p.v v)
  rw [hi1, hi2, hi3, hw1, hw2, hw3, PPUState.refresh_w, PPUState.refresh_t,
    PPUState.refresh_palette]
  exact ⟨rfl, rfl, rfl⟩

/-- `read_vram` never changes the VRAM address or the palette RAM. -/
theorem read_vram_keeps (p : PPUState) (a : Nat) :
    (p.read_vram a).2.v = p.v ∧ (p.read_vram a).2.palette_ram = p.palette_ram := by
  constructor <;>
    · simp only [PPUState.read_vram]
      repeat' split
      all_goals rfl

/-- A `read_vram` of a palette address returns the folded palette entry
and leaves the PPU open-bus byte holding the address itself. -/
theorem read_vram_palette_read (p : PPUState) (a : Nat)
    (h1 : 0x3F00 ≤ a) (h2 : a < 0x4000) :
    (p.read_vram a).1 =
      p.palette_ram
        (let i := (a - 0x3F00) % 0x20
         if i % 4 = 0 then
           if i = 0x10 then 0x00
           else if i = 0x14 then 0x04
           else if i = 0x18 then 0x08
           else if i = 0x1C then 0x0C
           else i
         else i)
    ∧ (p.read_vram a).2.bus = a := by
  unfold PPUState.read_vram
  have hm : a % 0x4000 = a := Nat.mod_eq_of_lt h2
  simp only [hm]
  rw [if_neg (by omega), if_neg (by omega)]
  exact ⟨rfl, rfl⟩

/-- The palette tail of a `$2007` read: the returned byte is the folded
palette entry masked to six bits, with bits 7-6 of the state's VRAM
address (which `read_vram` just latched onto the PPU open bus). -/
theorem read_2007_pal_fst (b : Nat) (q : PPUState)
    (h1 : 0x3F00 ≤ q.v) (h2 : q.v < 0x4000) :
    (PPUState.read_2007_pal b q).1 =
      (q.v &&& 0xC0) |||
        (q.palette_ram
          (let i := (q.v - 0x3F00) % 0x20
           if i % 4 = 0 then
             if i = 0x10 then 0x00
             else if i = 0x14 then 0x04
             else if i = 0x18 then 0x08
             else if i = 0x1C then 0x0C
             else i
           else i) &&& 0x3F) := by
  unfold PPUState.read_2007_pal PPUState.read_2007_pal2
  dsimp only
  have hB := read_vram_palette_read ({ q with buffer := b }) q.v h1 h2
  rw [hB.1, hB.2]

/-- A `$2007` read whose address sits in palette RAM returns
`(addr & $C0) | (palette & $3F)`: the high two bits come from the PPU
open-bus byte, which `read_vram` has just set to the (palette) address
itself. -/
theorem read_2007_palette_effect (p : PPUState)
    (h1 : 0x3F00 ≤ p.v) (h2 : p.v < 0x4000) :
    (p.read_register 0x2007).1 =
      (p.v &&& 0xC0) |||
        (p.palette_ram
          (let a := (p.v - 0x3F00) % 0x20
           if a % 4 = 0 then
             if a = 0x10 then 0x00
             else if a = 0x14 then 0x04
             else if a = 0x18 then 0x08
             else if a = 0x1C then 0x0C
             else a
           else a) &&& 0x3F) := by
  rw [read_register_2007]
  unfold PPUState.read_2007
  rw [if_neg (by omega)]
  have hA := read_vram_keeps p (p.v - 0x1000)
  rw [read_2007_pal_fst _ _ (by rw [hA.1]; exact h1) (by rw [hA.1]; omega)]
  rw [hA.1, hA.2]

/-- Generic palette probe computation: for a probe whose two addresses
are `$3F00 + lo` and `$3F00 + ro` with `lo, ro < $20`, the returned
byte is the post-write palette RAM entry at the folded read index,
masked to six bits. -/
theorem probe_core (p : PPUState) (v wa ra : Nat)
    (hw : p.w = 0) (ht : p.t < 0x8000)
    (hwhi : wa >>> 8 = 0x3F) (hrhi : ra >>> 8 = 0x3F)
    (hwlo : wa % 256 < 0x20) (hrlo : ra % 256 < 0x20) :
    palette_probe p wa ra v =
      ((if (wa % 256) % 4 = 0 then
          fset (fset p.palette_ram (wa % 256) v) ((wa % 256) ^^^ 0x10) v
        else fset p.palette_ram (wa % 256) v)
        (if (ra % 256) % 4 = 0 then
           if ra % 256 = 0x10 then 0x00
           else if ra % 256 = 0x14 then 0x04
           else if ra % 256 = 0x18 then 0x08
           else if ra % 256 = 0x1C then 0x0C
           else ra % 256
         else ra % 256)) &&& 0x3F := by
  have ht8 : p.t &&& 0x8000 = 0 := by
    rw [show (0x8000 : Nat) = 2 ^ 15 by norm_num, Nat.and_two_pow,
      Nat.testBit_lt_two_pow (by omega)]
    rfl
  have hvmask : ((p.t &&& 0x80FF) ||| 0x3F00) &&& 0xFF00 = 0x3F00 := by
    rw [Nat.and_distrib_right, Nat.and_assoc,
      show (0x80FF : Nat) &&& 0xFF00 = 0x8000 by decide, ht8, Nat.zero_or,
      show (0x3F00 : Nat) &&& 0xFF00 = 0x3F00 by decide]
  have hor : ∀ c, c < 0x20 → 0x3F00 ||| c = 0x3F00 + c := by decide
  have hand80FF : ∀ c, c < 0x20 → (0x3F00 + c) &&& 0x80FF = c := by decide
  have handFF00 : ∀ c, c < 0x20 → (0x3F00 + c) &&& 0xFF00 = 0x3F00 := by decide
  have handC0 : ∀ c, c < 0x20 → (0x3F00 + c) &&& 0xC0 = 0 := by decide
  -- step 1: first high `$2006` write
  obtain ⟨ha1, ha2, ha3⟩ := w2006_hi_effect p (wa >>> 8) hw
  have ha2' : (p.write_register 0x2006 (wa >>> 8)).t
      = (p.t &&& 0x80FF) ||| 0x3F00 := by
    rw [ha2, hwhi, show ((0x3F : Nat) &&& 0x3F) <<< 8 = 0x3F00 from by decide]
  -- step 2: first low `$2006` write
  obtain ⟨hb1, hb2, hb3, hb4⟩ :=
    w2006_lo_effect (p.write_register 0x2006 (wa >>> 8)) (wa % 256) ha1
  have hb2' : ((p.write_register 0x2006 (wa >>> 8)).write_register 0x2006
      (wa % 256)).t = 0x3F00 + wa % 256 := by
    rw [hb2, ha2', hvmask, hor _ hwlo]
  have hb3' : ((p.write_register 0x2006 (wa >>> 8)).write_register 0x2006
      (wa % 256)).v = 0x3F00 + wa % 256 := by
    rw [hb3, ha2', hvmask, hor _ hwlo]
  -- step 3: the `$2007` data write
  obtain ⟨hc1, hc2, hc3⟩ :=
    w2007_palette_effect
      ((p.write_register 0x2006 (wa >>> 8)).write_register 0x2006 (wa % 256)) v
      (by rw [hb3']; omega) (by rw [hb3']; omega)
  rw [hb1] at hc1
  rw [hb2'] at hc2
  rw [hb3', hb4, ha3, Nat.add_sub_cancel_left, Nat.mod_eq_of_lt hwlo] at hc3
  -- step 4: second high `$2006` write
  obtain ⟨hd1, hd2, hd3⟩ :=
    w2006_hi_effect
      (((p.write_register 0x2006 (wa >>> 8)).write_register 0x2006
        (wa % 256)).write_register 0x2007 v) (ra >>> 8) hc1
  have hd2' : ((((p.write_register 0x2006 (wa >>> 8)).write_register 0x2006
      (wa % 256)).write_register 0x2007 v).write_register 0x2006 (ra >>> 8)).t
        = 0x3F00 + wa % 256 := by
    rw [hd2, hrhi, show ((0x3F : Nat) &&& 0x3F) <<< 8 = 0x3F00 from by decide,
      hc2, hand80FF _ hwlo, Nat.or_comm, hor _ hwlo]
  -- step 5: second low `$2006` write
  obtain ⟨he1, he2, he3, he4⟩ :=
    w2006_lo_effect
      ((((p.write_register 0x2006 (wa >>> 8)).write_register 0x2006
        (wa % 256)).write_register 0x2007 v).write_register 0x2006 (ra >>> 8))
      (ra % 256) hd1
  rw [hd2', handFF00 _ hwlo, hor _ hrlo] at he3
  -- step 6: the `$2007` read back
  rw [palette_probe]
  rw [read_2007_palette_effect _ (by rw [he3]; omega) (by rw [he3]; omega)]
  rw [he3, he4, hd3, hc3]
  simp only [Nat.add_sub_cancel_left, Nat.mod_eq_of_lt hrlo, handC0 _ hrlo,
    Nat.zero_or]

/-- C7.  For `x ∈ {0,4,8,12}` and any byte `v`, writing `v` at PPU
address `$3F10+x` and then reading `$3F00+x` through the register
interface returns `v & $3F`, and symmetrically with the two addresses
swapped.  The hypotheses `p.w = 0` (write toggle clear, as after any
`$2002` read) and `p.t < 0x8000` (the loopy `t` register is 15 bits
wide, an invariant of every write in the source) pin down the register
protocol state. -/
theorem palette_mirror_spec (p : PPUState) (x v : Nat)
    (hw : p.w = 0) (ht : p.t < 0x8000)
    (hx : x = 0 ∨ x = 4 ∨ x = 8 ∨ x = 12) :
    palette_probe p (0x3F10 + x) (0x3F00 + x) v = v &&& 0x3F
    ∧ palette_probe p (0x3F00 + x) (0x3F10 + x) v = v &&& 0x3F := by
  rcases hx with rfl | rfl | rfl | rfl <;>
    constructor <;>
      · rw [probe_core p v _ _ hw ht (by decide) (by decide) (by decide)
          (by decide)]
        norm_num [fset, show (16 : Nat) ^^^ 16 = 0 from by decide,
          show (20 : Nat) ^^^ 16 = 4 from by decide,
          show (24 : Nat) ^^^ 16 = 8 from by decide,
          show (28 : Nat) ^^^ 16 = 12 from by decide]

/-! ## C10: the `$4016` (controller 1) read -/

theorem and_or_absorb (a b : Nat) : (a &&& b) ||| b = b := by
  apply Nat.eq_of_testBit_eq
  intro i
  simp only [Nat.testBit_or, Nat.testBit_and]
  cases ha : a.testBit i <;> cases hb : b.testBit i <;> simp

/-- Bit structure of the byte `(x & 0xE0) | (y & 0x01) | 0x40` produced
by the `$4016` read, for arbitrary `x` (the latched open bus) and `y`
(the serial result). -/
theorem mix_4016_bits (x y : Nat) :
    (((x &&& 0xE0) ||| (y &&& 0x01) ||| 0x40) &&& 0x40 = 0x40) ∧
    (((x &&& 0xE0) ||| (y &&& 0x01) ||| 0x40) &&& 0x1E = 0) ∧
    (((x &&& 0xE0) ||| (y &&& 0x01) ||| 0x40) &&& 0x80 = x &&& 0x80) ∧
    (((x &&& 0xE0) ||| (y &&& 0x01) ||| 0x40) &&& 0x20 = x &&& 0x20) ∧
    (((x &&& 0xE0) ||| (y &&& 0x01) ||| 0x40) &&& 0x01 = y &&& 0x01) := by
  refine ⟨?_, ?_, ?_, ?_, ?_⟩
  · rw [Nat.and_distrib_right, Nat.and_distrib_right, Nat.and_assoc, Nat.and_assoc,
      show (0xE0 &&& 0x40 : Nat) = 0x40 from by decide,
      show (0x01 &&& 0x40 : Nat) = 0 from by decide,
      show (0x40 &&& 0x40 : Nat) = 0x40 from by decide,
      Nat.and_zero, Nat.or_zero, and_or_absorb]
  · rw [Nat.and_distrib_right, Nat.and_distrib_right, Nat.and_assoc, Nat.and_assoc,
      show (0xE0 &&& 0x1E : Nat) = 0 from by decide,
      show (0x01 &&& 0x1E : Nat) = 0 from by decide,
      show (0x40 &&& 0x1E : Nat) = 0 from by decide,
      Nat.and_zero, Nat.and_zero, Nat.or_zero, Nat.or_zero]
  · rw [Nat.and_distrib_right, Nat.and_distrib_right, Nat.and_assoc, Nat.and_assoc,
      show (0xE0 &&& 0x80 : Nat) = 0x80 from by decide,
      show (0x01 &&& 0x80 : Nat) = 0 from by decide,
      show (0x40 &&& 0x80 : Nat) = 0 from by decide,
      Nat.and_zero, Nat.or_zero, Nat.or_zero]
  · rw [Nat.and_distrib_right, Nat.and_distrib_right, Nat.and_assoc, Nat.and_assoc,
      show (0xE0 &&& 0x20 : Nat) = 0x20 from by decide,
      show (0x01 &&& 0x20 : Nat) = 0 from by decide,
      show (0x40 &&& 0x20 : Nat) = 0 from by decide,
      Nat.and_zero, Nat.or_zero, Nat.or_zero]
  · rw [Nat.and_distrib_right, Nat.and_distrib_right, Nat.and_assoc, Nat.and_assoc,
      show (0xE0 &&& 0x01 : Nat) = 0 from by decide,
      show (0x01 &&& 0x01 : Nat) = 0x01 from by decide,
      show (0x40 &&& 0x01 : Nat) = 0 from by decide,
      Nat.and_zero, Nat.or_zero, Nat.zero_or]

theorem mem_read_4016 (m : Machine) : mem_read m 0x4016 = read_4016 m := rfl

/-- C10.  Every CPU read of `$4016` — whatever the strobe, shift index,
controller snapshot and open-bus state — returns a byte with bit 6 set
and bits 1–4 clear; bit 0 is the controller serial bit (the live A
button while the strobe is high, the indexed bit of the latched shift
register otherwise, and 1 once all eight bits have been shifted out),
and bits 5 and 7 are taken from the previously latched open-bus byte. -/
theorem controller_read_spec (m : Machine) :
    ((mem_read m 0x4016).1 &&& 0x40 = 0x40) ∧
    ((mem_read m 0x4016).1 &&& 0x1E = 0) ∧
    ((mem_read m 0x4016).1 &&& 0x80 = m.bus &&& 0x80) ∧
    ((mem_read m 0x4016).1 &&& 0x20 = m.bus &&& 0x20) ∧
    ((mem_read m 0x4016).1 &&& 0x01 =
      (if m.strobe ≠ 0 then m.controller1
       else if m.controller1_index > 7 then 1
       else m.controller1_shift >>> m.controller1_index) &&& 0x01) := by
  rw [mem_read_4016]
  by_cases hs : m.strobe ≠ 0
  · have h := mix_4016_bits m.bus (m.controller1 % 2)
    simp only [read_4016, read_4016_cont, if_pos hs]
    refine ⟨h.1, h.2.1, h.2.2.1, h.2.2.2.1, ?_⟩
    rw [h.2.2.2.2, Nat.and_one_is_mod, Nat.and_one_is_mod]
    omega
  · by_cases hi : m.controller1_index > 7
    · have h := mix_4016_bits m.bus 1
      simp only [read_4016, read_4016_cont, if_neg hs, if_pos hi]
      exact ⟨h.1, h.2.1, h.2.2.1, h.2.2.2.1, h.2.2.2.2⟩
    · have h := mix_4016_bits m.bus (m.controller1_shift >>> m.controller1_index % 2)
      simp only [read_4016, read_4016_cont, if_neg hs, if_neg hi]
      refine ⟨h.1, h.2.1, h.2.2.1, h.2.2.2.1, ?_⟩
      rw [h.2.2.2.2, Nat.and_one_is_mod, Nat.and_one_is_mod]
      omega

/-- C4.  Code bug (counterexample to the page-crossing rule): the taken
`BNE $7F` at `$80F0` branches to `$8171`, which lies on a different
page from the fall-through address `$80F2`, so the claimed rule (and
real hardware) require 2 base + 1 taken + 1 page-cross = 4 cycles —
but `run_instruction` returns 3.  `execute_bne` has already loaded the
branch target into `PC` before `_prepare_branch` captures
`old_pc = self.PC`, so the page-cross test compares the target with
itself and never fires; taken branches always cost exactly +1. -/
theorem branch_page_cross_bug :
    (run_instruction c4_machine).1 = 3 ∧
    (run_instruction c4_machine).2.cpu.PC = 0x8171 ∧
    page_crossed 0x80F2 0x8171 = true := by
  refine ⟨rfl, rfl, by decide⟩

/-! ## C9: BRK / NMI hijack -/

/-- A push with the stack pointer in range writes to RAM at
`$100 + S` and decrements `S`. -/
theorem push_stack_eq (m : Machine) (v : Nat) (h : m.cpu.S < 0x700) :
    push_stack m v =
      { m with ram := fset m.ram (0x100 + m.cpu.S) (v % 0x100),
               bus := v % 0x100,
               cpu := { m.cpu with S := (m.cpu.S + 255) % 256 } } := by
  have h1 : (0x100 + m.cpu.S) % 0x10000 = 0x100 + m.cpu.S := Nat.mod_eq_of_lt (by omega)
  have h2 : (0x100 + m.cpu.S) % 0x800 = 0x100 + m.cpu.S := Nat.mod_eq_of_lt (by omega)
  simp only [push_stack, mem_write, h1, h2]
  rw [if_pos (show (0x100 + m.cpu.S : Nat) < 0x2000 by omega)]

/-- A read from cartridge space (`$4020` and above) returns the mapper
byte and only latches the bus. -/
theorem mem_read_cart (m : Machine) (a : Nat) (h : 0x4020 ≤ a) (h2 : a < 0x10000) :
    mem_read m a = (m.cart.cpu_read a, { m with bus := m.cart.cpu_read a }) := by
  have h1 : a % 0x10000 = a := Nat.mod_eq_of_lt h2
  simp only [mem_read, h1]
  rw [if_neg (by omega), if_neg (by omega), if_neg (by omega), if_neg (by omega),
    if_neg (by omega), if_neg (by omega)]

/-- Reducing a byte modulo 256 does not change bit 4. -/
theorem mod_256_and_16 (x : Nat) : x % 0x100 &&& 0x10 = x &&& 0x10 := by
  apply Nat.eq_of_testBit_eq
  intro i
  show ((x % 2 ^ 8) &&& 0x10).testBit i = (x &&& 0x10).testBit i
  simp only [Nat.testBit_and, Nat.testBit_mod_two_pow]
  by_cases h8 : i < 8
  · simp [h8]
  · have h16 : (0x10 : Nat).testBit i = false := by
      apply Nat.testBit_lt_two_pow
      calc (0x10 : Nat) < 2 ^ 8 := by decide
        _ ≤ 2 ^ i := Nat.pow_le_pow_right (by decide) (by omega)
    simp [h8, h16]

/-- Setting bits 4 and 5 makes bit 4 of the result set, whatever the
status byte. -/
theorem or_30_bit4 (s : Nat) : (s ||| 0x30) &&& 0x10 = 0x10 := by
  rw [Nat.and_distrib_right, show (0x30 &&& 0x10 : Nat) = 0x10 from by decide,
    and_or_absorb]

/-! ## C9: BRK / NMI hijack — projection lemmas -/

theorem push_stack_ram (m : Machine) (v : Nat) (h : m.cpu.S < 0x700) :
    (push_stack m v).ram = fset m.ram (0x100 + m.cpu.S) (v % 0x100) := by
  rw [push_stack_eq m v h]

theorem push_stack_cpu (m : Machine) (v : Nat) (h : m.cpu.S < 0x700) :
    (push_stack m v).cpu = { m.cpu with S := (m.cpu.S + 255) % 256 } := by
  rw [push_stack_eq m v h]

theorem push_stack_cart (m : Machine) (v : Nat) (h : m.cpu.S < 0x700) :
    (push_stack m v).cart = m.cart := by
  rw [push_stack_eq m v h]

theorem brk_push_pc_cpu (m : Machine) (h : m.cpu.S < 256) :
    (brk_push_pc m).cpu = { m.cpu with
                              PC := (m.cpu.PC + 1) % 0x10000,
                              S := ((m.cpu.S + 255) % 256 + 255) % 256 } := by
  have h0 : ({ m with cpu := { m.cpu with PC := (m.cpu.PC + 1) % 0x10000 } }
      : Machine).cpu.S < 0x700 := by exact (by omega : m.cpu.S < 0x700)
  simp only [brk_push_pc]
  rw [push_stack_cpu _ _ ?h1, push_stack_cpu _ _ h0]
  case h1 => rw [push_stack_cpu _ _ h0]; exact (by omega : (m.cpu.S + 255) % 256 < 0x700)

theorem brk_push_pc_ram (m : Machine) (h : m.cpu.S < 256) :
    (brk_push_pc m).ram =
      fset (fset m.ram (0x100 + m.cpu.S)
              ((((m.cpu.PC + 1) % 0x10000) >>> 8 &&& 0xFF) % 0x100))
        (0x100 + (m.cpu.S + 255) % 256) (((m.cpu.PC + 1) % 0x10000 &&& 0xFF) % 0x100) := by
  have h0 : ({ m with cpu := { m.cpu with PC := (m.cpu.PC + 1) % 0x10000 } }
      : Machine).cpu.S < 0x700 := by exact (by omega : m.cpu.S < 0x700)
  simp only [brk_push_pc]
  rw [push_stack_ram _ _ ?h1, push_stack_ram _ _ h0, push_stack_cpu _ _ h0]
  case h1 => rw [push_stack_cpu _ _ h0]; exact (by omega : (m.cpu.S + 255) % 256 < 0x700)

theorem brk_push_pc_cart (m : Machine) (h : m.cpu.S < 256) :
    (brk_push_pc m).cart = m.cart := by
  have h0 : ({ m with cpu := { m.cpu with PC := (m.cpu.PC + 1) % 0x10000 } }
      : Machine).cpu.S < 0x700 := by exact (by omega : m.cpu.S < 0x700)
  simp only [brk_push_pc]
  rw [push_stack_cart _ _ ?h1, push_stack_cart _ _ h0]
  case h1 => rw [push_stack_cpu _ _ h0]; exact (by omega : (m.cpu.S + 255) % 256 < 0x700)

theorem brk_vector_cpu (m : Machine) (vec : Nat) (hS : m.cpu.S < 0x700)
    (hlo : 0x4020 ≤ vec) (hhi : vec + 1 < 0x10000) :
    (brk_vector m vec).cpu = { m.cpu with
      PC := (m.cart.cpu_read (vec + 1) <<< 8) ||| m.cart.cpu_read vec,
      S := (m.cpu.S + 255) % 256, I := 1, interrupt_inhibit := 1 } := by
  simp only [brk_vector]
  rw [mem_read_cart _ vec (by omega) (by omega)]
  dsimp only
  rw [mem_read_cart _ (vec + 1) (by omega) hhi]
  dsimp only
  rw [push_stack_cart _ _ hS, push_stack_cpu _ _ hS]

theorem brk_vector_ram (m : Machine) (vec : Nat) (hS : m.cpu.S < 0x700)
    (hlo : 0x4020 ≤ vec) (hhi : vec + 1 < 0x10000) :
    (brk_vector m vec).ram =
      fset m.ram (0x100 + m.cpu.S) ((get_status_byte m.cpu ||| 0x30) % 0x100) := by
  simp only [brk_vector]
  rw [mem_read_cart _ vec (by omega) (by omega)]
  dsimp only
  rw [mem_read_cart _ (vec + 1) (by omega) hhi]
  dsimp only
  rw [push_stack_ram _ _ hS]

theorem execute_brk_nmi (m : Machine)
    (hp : m.cpu.interrupt_pending = some IrqKind.nmi) (hS : m.cpu.S < 256) :
    execute_brk m = { brk_vector (brk_push_pc m) 0xFFFA with
      cpu := { (brk_vector (brk_push_pc m) 0xFFFA).cpu with
                 interrupt_pending := none } } := by
  have hc : (brk_push_pc m).cpu.interrupt_pending = some IrqKind.nmi := by
    rw [brk_push_pc_cpu _ hS]; exact hp
  simp only [execute_brk]
  rw [if_pos hc]

/-- C9.  BRK/NMI hijack: if an NMI is latched when BRK executes, PC is
loaded from the NMI vector `$FFFA/$FFFB` (not the BRK vector
`$FFFE/$FFFF`), the pushed status byte still has the B flag (bit 4)
set exactly as for a normal BRK, the pushed return address is PC + 1
(the BRK address plus 2, since PC already points past the opcode),
I and the effective inhibit are set, and the pending NMI is
consumed. -/
theorem brk_nmi_hijack (m : Machine)
    (hp : m.cpu.interrupt_pending = some IrqKind.nmi) (hS : m.cpu.S < 256) :
    ((execute_brk m).cpu.PC =
      (m.cart.cpu_read 0xFFFB <<< 8) ||| m.cart.cpu_read 0xFFFA) ∧
    (execute_brk m).cpu.I = 1 ∧
    (execute_brk m).cpu.interrupt_inhibit = 1 ∧
    (execute_brk m).cpu.interrupt_pending = none ∧
    (execute_brk m).ram (0x100 + m.cpu.S) =
      ((m.cpu.PC + 1) % 0x10000) >>> 8 &&& 0xFF ∧
    (execute_brk m).ram (0x100 + (m.cpu.S + 255) % 256) =
      (m.cpu.PC + 1) % 0x10000 &&& 0xFF ∧
    (execute_brk m).ram (0x100 + (m.cpu.S + 254) % 256) &&& 0x10 = 0x10 := by
  have hSv : (brk_push_pc m).cpu.S < 0x700 := by
    rw [brk_push_pc_cpu _ hS]
    exact (by omega : ((m.cpu.S + 255) % 256 + 255) % 256 < 0x700)
  have hcpu := brk_vector_cpu (brk_push_pc m) 0xFFFA hSv (by omega) (by omega)
  have hram := brk_vector_ram (brk_push_pc m) 0xFFFA hSv (by omega) (by omega)
  rw [execute_brk_nmi m hp hS]
  dsimp only
  refine ⟨?_, ?_, ?_, rfl, ?_, ?_, ?_⟩
  · rw [hcpu, brk_push_pc_cart _ hS]
  · rw [hcpu]
  · rw [hcpu]
  · rw [hram, brk_push_pc_ram _ hS, brk_push_pc_cpu _ hS]
    dsimp only
    rw [fset_other _ _ _ _ (by omega), fset_other _ _ _ _ (by omega), fset_same]
    exact Nat.mod_eq_of_lt (Nat.lt_succ_of_le Nat.and_le_right)
  · rw [hram, brk_push_pc_ram _ hS, brk_push_pc_cpu _ hS]
    dsimp only
    rw [fset_other _ _ _ _ (by omega), fset_same]
    exact Nat.mod_eq_of_lt (Nat.lt_succ_of_le Nat.and_le_right)
  · rw [hram, brk_push_pc_ram _ hS, brk_push_pc_cpu _ hS]
    dsimp only
    rw [show (0x100 + (m.cpu.S + 254) % 256 : Nat) =
      0x100 + ((m.cpu.S + 255) % 256 + 255) % 256 by omega, fset_same, mod_256_and_16,
      or_30_bit4]

theorem brk_nmi_hijack_witness :
    (execute_brk c9_machine).cpu.PC = 0x8234 ∧
    (execute_brk c9_machine).cpu.I = 1 ∧
    (execute_brk c9_machine).ram 0x1FB &&& 0x10 = 0x10 := by
  have h := brk_nmi_hijack c9_machine rfl (by decide)
  refine ⟨by rw [h.1]; rfl, h.2.1, ?_⟩
  have h7 := h.2.2.2.2.2.2
  simpa using h7

/-! ## C3: OAM DMA (`$4014`) -/

theorem mem_read_cpu (m : Machine) (a : Nat) : (mem_read m a).2.cpu = m.cpu := by
  simp only [mem_read, read_4016, read_4016_cont]
  split
  · rfl
  split
  · rfl
  split
  · rfl
  split
  · split <;> [rfl; skip]
    split <;> rfl
  split
  · rfl
  split <;> rfl

theorem dma_slow_cpu (s : Nat) (fuel i : Nat) (m : Machine) :
    (dma_slow s fuel i m).cpu = m.cpu := by
  induction fuel generalizing i m with
  | zero => rfl
  | succ n ih => rw [dma_slow, ih]; exact mem_read_cpu m (s + i)

theorem mem_write_4014 (m : Machine) (v : Nat) :
    mem_write m 0x4014 v = write_4014 { m with bus := v % 0x100 } (v % 0x100) := rfl

/-- The DMA stall as added by `CPU.add_dma_cycles` via `Memory.write`:
513 cycles, plus one more when the CPU is on an odd cycle. -/
theorem write_4014_dma (m : Machine) (v : Nat) :
    (write_4014 m v).cpu.dma_cycles =
      m.cpu.dma_cycles + 513 + (if m.cpu.odd_cycle ≠ 0 then 1 else 0) := by
  have hcpu : (match get_ptr m (v * 0x100) with
      | some (data, offset, len) =>
        if offset + 256 ≤ len then
          { m with
            ppu := { m.ppu with
              oam := fun i => if i < 256 then data (offset + i) else m.ppu.oam i },
            bus := data (offset + 255) }
        else dma_slow (v * 0x100) 256 0 m
      | none => dma_slow (v * 0x100) 256 0 m).cpu = m.cpu := by
    cases hgp : get_ptr m (v * 0x100) with
    | none => exact dma_slow_cpu _ _ _ _
    | some p =>
      obtain ⟨data, offset, len⟩ := p
      dsimp only
      split
      · rfl
      · exact dma_slow_cpu _ _ _ _
  simp only [write_4014, add_dma_cycles, hcpu]
  by_cases ho : m.cpu.odd_cycle ≠ 0 <;> simp [ho]

theorem mem_read_ram (m : Machine) (a : Nat) (h : a < 0x2000) :
    mem_read m a = (m.ram (a % 0x800), { m with bus := m.ram (a % 0x800) }) := by
  have h1 : a % 0x10000 = a := Nat.mod_eq_of_lt (by omega)
  simp only [mem_read, h1]
  rw [if_pos h]

/-- C3 (amended).  A CPU write of `v` to `$4014` always stalls the CPU
for 513 cycles plus one more if the write lands on an odd CPU cycle;
and for `v < $20` (the internal-RAM pages, where the source takes the
direct-copy fast path and the address range contains no registers)
every OAM byte `i` receives the byte the CPU would read at
`v*256 + i`.  (For `v ≥ $20` the byte-for-byte equation can fail: the
slow path issues real bus reads, which are self-modifying on the PPU
register mirrors — see the counterexample.) -/
theorem oam_dma_spec (m : Machine) (v i : Nat) (hv : v < 0x20) (hi : i < 256) :
    (∀ w : Nat, (mem_write m 0x4014 w).cpu.dma_cycles =
        m.cpu.dma_cycles + 513 + (if m.cpu.odd_cycle ≠ 0 then 1 else 0)) ∧
    (mem_write m 0x4014 v).ppu.oam i = (mem_read m (v * 0x100 + i)).1 := by
  constructor
  · intro w
    rw [mem_write_4014, write_4014_dma]
  · rw [mem_write_4014]
    have hv' : v % 0x100 = v := Nat.mod_eq_of_lt (by omega)
    rw [hv']
    have hgp : get_ptr { m with bus := v } (v * 0x100) =
        some (m.ram, v * 0x100 % 0x800, 0x800) := by
      simp only [get_ptr]
      rw [if_pos (by omega : v * 0x100 < 0x2000)]
    simp only [write_4014, hgp]
    rw [if_pos (by omega : v * 0x100 % 0x800 + 256 ≤ 0x800)]
    dsimp only
    rw [if_pos hi, mem_read_ram m (v * 0x100 + i) (by omega)]
    dsimp only
    have : v * 0x100 % 0x800 + i = (v * 0x100 + i) % 0x800 := by omega
    rw [this]

/-- C3 counterexample: writing `$20` to `$4014` makes the slow path
read the `$2002` mirror at `$200A` *after* an earlier loop iteration
already read `$2002` (clearing VBlank), so `OAM[10] = 0` even though
the CPU byte at `$200A` was `$80` when the DMA began. -/
theorem oam_dma_mirror_counterexample :
    (mem_write c3_machine 0x4014 0x20).ppu.oam 10 = 0 ∧
    (mem_read c3_machine (0x20 * 0x100 + 10)).1 = 0x80 := ⟨rfl, rfl⟩

theorem oam_dma_spec_witness :
    (mem_write c3_machine 0x4014 0).cpu.dma_cycles = 513 ∧
    (mem_write c3_machine 0x4014 0).ppu.oam 5 = (mem_read c3_machine (0 * 0x100 + 5)).1 := by
  have h := oam_dma_spec c3_machine 0 5 (by decide) (by decide)
  exact ⟨by rw [h.1 0]; rfl, h.2⟩

theorem clock_iter_closed (s : Mapper4State) (hL : 1 ≤ s.irq_latch)
    (h0 : s.irq_counter = 0 ∨ s.irq_reload = true) :
    ∀ k, 1 ≤ k → k ≤ s.irq_latch →
      clock_iter s k =
        { s with irq_counter := s.irq_latch - (k - 1), irq_reload := false } := by
  intro k
  induction k with
  | zero => intro h; exact absurd h (by omega)
  | succ n ih =>
    intro _ hle
    by_cases hn : n = 0
    · subst hn
      show (clock_irq (clock_iter s 0)).1 = _
      simp only [clock_iter, clock_irq]
      rw [if_pos h0, if_pos (by omega : s.irq_latch ≠ 0)]
      norm_num
    · have hprev := ih (by omega) (by omega)
      show (clock_irq (clock_iter s n)).1 = _
      rw [hprev]
      simp only [clock_irq]
      rw [if_neg ?hcond]
      case hcond =>
        try dsimp only
        rintro (h | h)
        · omega
        · simp at h
      try dsimp only
      rw [show s.irq_latch - (n - 1) - 1 = s.irq_latch - (n + 1 - 1) by omega]

/-- C8 (amended).  With IRQ latch `L ≥ 1`, IRQs enabled, and the
counter at 0 (or the reload flag set), the first accepted A12 rising
edge reloads the counter to `L`, each further accepted edge decrements
it, and the IRQ is asserted on edge `L + 1` — one edge later than the
claim's "after exactly L accepted edges".  An accepted edge is a
rising edge of PPU address bit 12 at least 3 CPU cycles after the
previous accepted one (`a12_step` invokes `clock_irq` exactly then),
and a write to `$E000` (even) disables IRQs, after which no edge
asserts an IRQ until `$E001` re-enables them. -/
theorem mmc3_irq_spec (s : Mapper4State) (hL : 1 ≤ s.irq_latch)
    (h0 : s.irq_counter = 0 ∨ s.irq_reload = true) (he : s.irq_enabled = true) :
    (∀ k, 1 ≤ k → k ≤ s.irq_latch → (clock_irq (clock_iter s (k - 1))).2 = false) ∧
    (clock_irq (clock_iter s s.irq_latch)).2 = true ∧
    (∀ (t : Mapper4State) (v : Nat), (mapper4_write t 0xE000 v).irq_enabled = false) ∧
    (∀ t : Mapper4State, t.irq_enabled = false →
      (clock_irq t).2 = false ∧ (clock_irq t).1.irq_enabled = false) ∧
    (∀ (t : Mapper4State) (addr cyc : Nat), t.prev_a12 = 0 → (addr >>> 12) &&& 1 = 1 →
      cyc - t.last_a12_cycle ≥ 3 →
      a12_step t addr cyc =
        ({ (clock_irq t).1 with last_a12_cycle := cyc, prev_a12 := 1 },
          (clock_irq t).2)) := by
  refine ⟨?_, ?_, ?_, ?_, ?_⟩
  · intro k h1 hle
    by_cases hk : k = 1
    · subst hk
      show (clock_irq (clock_iter s 0)).2 = false
      simp only [clock_iter, clock_irq]
      rw [if_pos h0, if_pos (by omega : s.irq_latch ≠ 0)]
      simp only [Bool.and_eq_false_iff, decide_eq_false_iff_not]
      left
      exact (by omega : ¬ s.irq_latch = 0)
    · rw [clock_iter_closed s hL h0 (k - 1) (by omega) (by omega)]
      simp only [clock_irq]
      rw [if_neg ?hc2]
      case hc2 =>
        try dsimp only
        rintro (h | h)
        · omega
        · simp at h
      try dsimp only
      simp only [Bool.and_eq_false_iff, decide_eq_false_iff_not]
      left
      omega
  · rw [clock_iter_closed s hL h0 s.irq_latch hL (le_refl _)]
    simp only [clock_irq]
    rw [if_neg ?hc3]
    case hc3 =>
      try dsimp only
      rintro (h | h)
      · omega
      · simp at h
    try dsimp only
    rw [show s.irq_latch - (s.irq_latch - 1) - 1 = 0 by omega]
    simp [he]
  · intro t v
    simp only [mapper4_write]
    rw [if_neg (by omega), if_pos (by omega : 0xE000 ≤ 0xE000 ∧ 0xE000 ≤ 0xFFFF)]
    rfl
  · intro t ht
    constructor
    · simp only [clock_irq]
      split <;> simp [ht]
    · simp only [clock_irq]
      split <;> simp [ht]
  · intro t addr cyc hprev ha12 hcyc
    simp only [a12_step, ha12]
    rw [if_pos ⟨hprev, trivial⟩, if_pos hcyc]

/-- C8 counterexample: with latch `L = 1`, the first accepted A12
edge asserts no IRQ (it only reloads the counter to 1); the IRQ
arrives on the second edge. -/
theorem mmc3_irq_counterexample :
    (clock_irq c8_state).2 = false ∧ (clock_irq (clock_irq c8_state).1).2 = true := by
  exact ⟨rfl, rfl⟩

theorem mmc3_irq_spec_witness :
    (clock_irq (clock_iter c8_state3 0)).2 = false ∧
    (clock_irq (clock_iter c8_state3 3)).2 = true ∧
    (mapper4_write c8_state3 0xE000 0).irq_enabled = false := by
  have h := mmc3_irq_spec c8_state3 (by decide) (Or.inl rfl) rfl
  exact ⟨h.1 1 (by decide) (by decide), h.2.1, h.2.2.1 c8_state3 0⟩

theorem step_frame_loop_bound {α : Type} (step : α → α) (render : α → Bool)
    (scanline cycle : α → Nat) (bump force_render : α → α)
    (hf : ∀ t, render (force_render t) = true) :
    ∀ (fuel count : Nat) (lsl lcy : Int) (osc : Nat) (s : α),
      count + fuel = 89001 → count ≤ 89000 →
      (step_frame_loop step render scanline cycle bump force_render
          fuel count lsl lcy osc s).2 ≤ 89001 ∧
      render (step_frame_loop step render scanline cycle bump force_render
          fuel count lsl lcy osc s).1 = true := by
  intro fuel
  induction fuel with
  | zero => intro count lsl lcy osc s hsum hle; omega
  | succ n ih =>
    intro count lsl lcy osc s hsum hle
    rw [step_frame_loop]
    by_cases hr : render s = true
    · rw [if_pos hr]
      exact ⟨by omega, hr⟩
    · rw [if_neg hr]
      dsimp only
      by_cases hc : count + 1 > 89000
      · rw [if_pos hc]
        exact ⟨by omega, hf _⟩
      · rw [if_neg hc]
        exact ih (count + 1) _ _ _ _ (by omega) (by omega)

theorem step_frame_loop_full {α : Type} (step : α → α)
    (scanline cycle : α → Nat) (bump force_render : α → α) :
    ∀ (fuel count : Nat) (lsl lcy : Int) (osc : Nat) (s : α),
      count + fuel = 89001 → count ≤ 89000 →
      (step_frame_loop step (fun _ => false) scanline cycle bump force_render
          fuel count lsl lcy osc s).2 = 89001 := by
  intro fuel
  induction fuel with
  | zero => intro count lsl lcy osc s hsum hle; omega
  | succ n ih =>
    intro count lsl lcy osc s hsum hle
    rw [step_frame_loop]
    rw [if_neg (by simp)]
    dsimp only
    by_cases hc : count + 1 > 89000
    · rw [if_pos hc]
      omega
    · rw [if_neg hc]
      exact ih (count + 1) _ _ _ _ (by omega) (by omega)

/-- C5 (amended).  `step_frame` always returns, whatever the machine
does: it exits as soon as the PPU render flag is set, and otherwise
the safety break forces the flag and exits after at most 89 001 loop
iterations (one CPU cycle each) — not the 200 000 of the claim.  On
return the render flag is always set. -/
theorem run_frame_ceiling {α : Type} (step : α → α) (render : α → Bool)
    (scanline cycle : α → Nat) (bump force_render clear_render : α → α)
    (hf : ∀ t, render (force_render t) = true) (s : α) :
    (step_frame step render scanline cycle bump force_render clear_render s).2 ≤ 89001 ∧
    render (step_frame step render scanline cycle bump force_render
        clear_render s).1 = true := by
  exact step_frame_loop_bound step render scanline cycle bump force_render hf
    89001 0 (-1) (-1) 0 (clear_render s) (by omega) (by omega)

/-- C5 counterexample: on a machine whose render flag never arrives,
the loop runs exactly 89 001 steps before the safety break — the
claimed ceiling of 200 000 CPU cycles is wrong. -/
theorem run_frame_ceiling_counterexample :
    (step_frame (fun u : Unit => u) (fun _ => false) (fun _ => 0) (fun _ => 0)
        (fun u => u) (fun u => u) (fun u => u) ()).2 = 89001 ∧
      (89001 : Nat) ≠ 200000 := by
  refine ⟨?_, by omega⟩
  exact step_frame_loop_full (fun u : Unit => u) (fun _ => 0) (fun _ => 0)
    (fun u => u) (fun u => u) 89001 0 (-1) (-1) 0 () (by omega) (by omega)

theorem run_frame_ceiling_witness :
    (step_frame (fun b : Bool => b) (fun b : Bool => b) (fun _ => 0) (fun _ => 0)
        (fun b => b) (fun _ => true) (fun _ => true) false).2 ≤ 89001 ∧
    (step_frame (fun b : Bool => b) (fun b : Bool => b) (fun _ => 0) (fun _ => 0)
        (fun b => b) (fun _ => true) (fun _ => true) false).1 = true := by
  exact run_frame_ceiling (fun b : Bool => b) (fun b : Bool => b) (fun _ => 0)
    (fun _ => 0) (fun b => b) (fun _ => true) (fun _ => true)
    (fun _ => rfl) false

namespace PPUState

/-- `read_vram` never touches the scroll registers, the dot position,
the mask, or the pipeline flag. -/
theorem read_vram_keeps_scroll (p : PPUState) (a : Nat) :
    (p.read_vram a).2.v = p.v ∧ (p.read_vram a).2.t = p.t ∧
    (p.read_vram a).2.scanline = p.scanline ∧ (p.read_vram a).2.cycle = p.cycle ∧
    (p.read_vram a).2.mask = p.mask ∧
    (p.read_vram a).2.use_new_sprite_pipeline = p.use_new_sprite_pipeline := by
  refine ⟨?_, ?_, ?_, ?_, ?_, ?_⟩ <;>
    · simp only [PPUState.read_vram]
      repeat' split
      all_goals rfl

theorem sprite_fetch_loop_keeps (target h : Nat) :
    ∀ (fuel slot : Nat) (p : PPUState),
      (sprite_fetch_loop target h fuel slot p).v = p.v ∧
      (sprite_fetch_loop target h fuel slot p).t = p.t ∧
      (sprite_fetch_loop target h fuel slot p).scanline = p.scanline ∧
      (sprite_fetch_loop target h fuel slot p).cycle = p.cycle ∧
      (sprite_fetch_loop target h fuel slot p).mask = p.mask ∧
      (sprite_fetch_loop target h fuel slot p).use_new_sprite_pipeline =
        p.use_new_sprite_pipeline := by
  intro fuel
  induction fuel with
  | zero => intro slot p; exact ⟨rfl, rfl, rfl, rfl, rfl, rfl⟩
  | succ n ih =>
    intro slot p
    refine ⟨?_, ?_, ?_, ?_, ?_, ?_⟩ <;>
      · simp only [sprite_fetch_loop, ih, read_vram_keeps_scroll]
        split <;> rfl

theorem sprite_commit_loop_keeps :
    ∀ (fuel i : Nat) (p : PPUState),
      (sprite_commit_loop fuel i p).v = p.v ∧
      (sprite_commit_loop fuel i p).t = p.t ∧
      (sprite_commit_loop fuel i p).scanline = p.scanline ∧
      (sprite_commit_loop fuel i p).cycle = p.cycle ∧
      (sprite_commit_loop fuel i p).mask = p.mask ∧
      (sprite_commit_loop fuel i p).use_new_sprite_pipeline =
        p.use_new_sprite_pipeline := by
  intro fuel
  induction fuel with
  | zero => intro i p; exact ⟨rfl, rfl, rfl, rfl, rfl, rfl⟩
  | succ n ih =>
    intro i p
    refine ⟨?_, ?_, ?_, ?_, ?_, ?_⟩ <;>
      · simp only [sprite_commit_loop, ih]

theorem sprite_eval_step_keeps (target h cyc : Nat) (p : PPUState) :
    (sprite_eval_step target h cyc p).v = p.v ∧
    (sprite_eval_step target h cyc p).t = p.t ∧
    (sprite_eval_step target h cyc p).scanline = p.scanline ∧
    (sprite_eval_step target h cyc p).cycle = p.cycle ∧
    (sprite_eval_step target h cyc p).mask = p.mask ∧
    (sprite_eval_step target h cyc p).use_new_sprite_pipeline =
      p.use_new_sprite_pipeline := by
  refine ⟨?_, ?_, ?_, ?_, ?_, ?_⟩ <;>
    · simp only [sprite_eval_step]
      repeat' split
      all_goals rfl

set_option maxHeartbeats 3200000 in
theorem sprite_pipeline_step_keeps (p : PPUState) :
    (sprite_pipeline_step p).v = p.v ∧
    (sprite_pipeline_step p).t = p.t ∧
    (sprite_pipeline_step p).scanline = p.scanline ∧
    (sprite_pipeline_step p).cycle = p.cycle ∧
    (sprite_pipeline_step p).mask = p.mask ∧
    (sprite_pipeline_step p).use_new_sprite_pipeline =
      p.use_new_sprite_pipeline := by
  refine ⟨?_, ?_, ?_, ?_, ?_, ?_⟩ <;>
    · simp only [sprite_pipeline_step]
      repeat' split
      all_goals
        simp only [sprite_eval_step_keeps, sprite_fetch_loop_keeps,
          sprite_commit_loop_keeps]

set_option maxHeartbeats 3200000 in
theorem ppu_step_257_v (p : PPUState) (hsl : p.scanline < 240) (hc : p.cycle = 257)
    (hbg : p.mask &&& 0x08 ≠ 0) (hnew : p.use_new_sprite_pipeline = true) :
    (PPUState.step p).v = yInc p.v := by
  obtain ⟨kv, kt, ksl, kc, km, kn⟩ := sprite_pipeline_step_keeps p
  have h241 : ¬ 241 ≤ p.scanline := by omega
  have h261 : ¬ p.scanline = 261 := by omega
  simp [PPUState.step, PPUState.increment_y, hnew, kv, kt, ksl, kc, km, kn, hc, hbg,
    hsl, h241, h261]

set_option maxHeartbeats 3200000 in
theorem ppu_step_258_v (p : PPUState) (hsl : p.scanline < 240) (hc : p.cycle = 258)
    (hshow : p.mask &&& 0x18 ≠ 0) (hnew : p.use_new_sprite_pipeline = true) :
    (PPUState.step p).v = andn p.v 0x41F ||| (p.t &&& 0x41F) := by
  obtain ⟨kv, kt, ksl, kc, km, kn⟩ := sprite_pipeline_step_keeps p
  have h241 : ¬ 241 ≤ p.scanline := by omega
  have h261 : ¬ p.scanline = 261 := by omega
  simp [PPUState.step, PPUState.copy_x, hnew, kv, kt, ksl, kc, km, kn, hc, hshow,
    hsl, h241, h261]

end PPUState

/-- C6 (amended).  On visible scanlines with background rendering on
(and the default sprite pipeline), the fine-Y increment of `v` happens
when the PPU steps the dot numbered 257 — one dot later than the
claim's "dot 256" — and the horizontal copy of `t` into `v` happens at
dot 258, not 257.  The increment itself follows the claimed wrap
rules: fine-Y below 7 increments by `$1000`; at fine-Y 7 it resets and
coarse-Y 29 wraps to 0 toggling the vertical-nametable bit (`$800`),
coarse-Y 31 wraps to 0 without the toggle, and any other coarse-Y
increments. -/
theorem scroll_increment_spec (p : PPUState) (hsl : p.scanline < 240)
    (hbg : p.mask &&& 0x08 ≠ 0) (hnew : p.use_new_sprite_pipeline = true) :
    (p.cycle = 257 → (PPUState.step p).v = PPUState.yInc p.v) ∧
    (p.cycle = 258 → p.mask &&& 0x18 ≠ 0 →
      (PPUState.step p).v = andn p.v 0x41F ||| (p.t &&& 0x41F)) ∧
    (∀ w, w &&& 0x7000 ≠ 0x7000 → PPUState.yInc w = w + 0x1000) ∧
    (∀ nt < 4, ∀ cx < 32,
      PPUState.yInc (cx + 29 * 0x20 + nt * 0x400 + 0x7000) = cx + (nt ^^^ 2) * 0x400) ∧
    (∀ nt < 4, ∀ cx < 32,
      PPUState.yInc (cx + 31 * 0x20 + nt * 0x400 + 0x7000) = cx + nt * 0x400) ∧
    (∀ cy < 32, cy ≠ 29 → cy ≠ 31 → ∀ nt < 4, ∀ cx < 32,
      PPUState.yInc (cx + cy * 0x20 + nt * 0x400 + 0x7000) =
        cx + (cy + 1) * 0x20 + nt * 0x400) := by
  refine ⟨?_, ?_, ?_, by decide, by decide, by decide⟩
  · intro hc
    exact PPUState.ppu_step_257_v p hsl hc hbg hnew
  · intro hc hshow
    exact PPUState.ppu_step_258_v p hsl hc hshow hnew
  · intro w hw
    simp only [PPUState.yInc]
    rw [if_pos hw]

/-- C6 counterexample: stepping the PPU through dot 256 performs the
coarse-X increment (the dots-divisible-by-8 path), not the fine-Y
increment: from `v = 0` the new `v` is 1, while the claimed fine-Y
increment would give `$1000`. -/
theorem scroll_increment_counterexample :
    (PPUState.step c6_ppu).v = 1 ∧ (1 : Nat) ≠ 0 + 0x1000 := ⟨rfl, by decide⟩

theorem scroll_increment_spec_witness :
    (PPUState.step c6w_ppu).v = 0x1000 ∧ c6w_ppu.cycle = 257 := by
  have h := scroll_increment_spec c6w_ppu (by decide) (by decide) rfl
  refine ⟨?_, rfl⟩
  rw [h.1 rfl]
  rfl

/-! ## C1: CLI/SEI/PLP recognition delay -/

/-- A pop always lands in stack RAM (`$100 + (S+1) % 256 < $200`), so
`pop_stack` needs no side condition. -/
theorem pop_stack_eq (m : Machine) :
    pop_stack m = (m.ram (0x100 + (m.cpu.S + 1) % 256),
      { m with bus := m.ram (0x100 + (m.cpu.S + 1) % 256),
               cpu := { m.cpu with S := (m.cpu.S + 1) % 256 } }) := by
  have hlt : 0x100 + (m.cpu.S + 1) % 256 < 0x2000 := by omega
  have h8 : (0x100 + (m.cpu.S + 1) % 256) % 0x800 = 0x100 + (m.cpu.S + 1) % 256 := by
    omega
  simp only [pop_stack]
  rw [mem_read_ram _ _ hlt]
  rw [h8]

theorem execute_plp_toggle (m : Machine)
    (h : (m.ram (0x100 + (m.cpu.S + 1) % 256) >>> 2) % 2 ≠ m.cpu.I) :
    (execute_plp m).cpu.I = (m.ram (0x100 + (m.cpu.S + 1) % 256) >>> 2) % 2 ∧
    (execute_plp m).cpu.interrupt_inhibit = m.cpu.interrupt_inhibit ∧
    (execute_plp m).cpu.interrupt_delay_counter = 1 := by
  refine ⟨?_, ?_, ?_⟩ <;>
    · simp only [execute_plp, pop_stack_eq, set_status_byte]
      rw [if_pos h]

theorem execute_rti_inhibit (m : Machine) :
    (execute_rti m).cpu.interrupt_inhibit = (execute_rti m).cpu.I := by
  simp only [execute_rti, pop_stack_eq, set_status_byte]

/-- C1.  CLI and SEI set the visible I flag immediately but leave the
effective inhibit untouched, arming a one-instruction delay counter; a
PLP that toggles I behaves the same; RTI updates the effective inhibit
to the (new) I immediately.  In the scenario SEI (from I = 0), CLI,
IRQ latched, NOP: the CLI leaves the inhibit at 1 (the SEI's deferred
value), the NOP boundary lowers the inhibit to 0 yet does not service
the IRQ (a delay was still active when the NOP started) and executes
normally in 2 cycles, and only the boundary after the NOP services the
IRQ: 7 cycles, pending cleared, PC loaded from the `$FFFE/$FFFF`
vector. -/
theorem cli_delay_spec :
    (∀ m : Machine, (execute_cli m).cpu.I = 0 ∧
      (execute_cli m).cpu.interrupt_inhibit = m.cpu.interrupt_inhibit ∧
      (execute_cli m).cpu.interrupt_delay_counter = 1) ∧
    (∀ m : Machine, (execute_sei m).cpu.I = 1 ∧
      (execute_sei m).cpu.interrupt_inhibit = m.cpu.interrupt_inhibit ∧
      (execute_sei m).cpu.interrupt_delay_counter = 1) ∧
    (∀ m : Machine, (m.ram (0x100 + (m.cpu.S + 1) % 256) >>> 2) % 2 ≠ m.cpu.I →
      (execute_plp m).cpu.I = (m.ram (0x100 + (m.cpu.S + 1) % 256) >>> 2) % 2 ∧
      (execute_plp m).cpu.interrupt_inhibit = m.cpu.interrupt_inhibit ∧
      (execute_plp m).cpu.interrupt_delay_counter = 1) ∧
    (∀ m : Machine, (execute_rti m).cpu.interrupt_inhibit = (execute_rti m).cpu.I) ∧
    (c1_after_sei.cpu.I = 1 ∧ c1_after_sei.cpu.interrupt_inhibit = 0 ∧
      c1_after_sei.cpu.interrupt_delay_counter = 1) ∧
    (c1_after_cli.2.cpu.I = 0 ∧ c1_after_cli.2.cpu.interrupt_inhibit = 1 ∧
      c1_after_cli.2.cpu.PC = 0x8002) ∧
    c1_irq.cpu.interrupt_pending = some IrqKind.irq ∧
    (c1_after_nop.1 = 2 ∧ c1_after_nop.2.cpu.interrupt_pending = some IrqKind.irq ∧
      c1_after_nop.2.cpu.PC = 0x8003 ∧
      c1_after_nop.2.cpu.interrupt_inhibit = 0) ∧
    (c1_after_next.1 = 7 ∧ c1_after_next.2.cpu.interrupt_pending = none ∧
      c1_after_next.2.cpu.PC = 0x9000) := by
  refine ⟨fun m => ⟨rfl, rfl, rfl⟩, fun m => ⟨rfl, rfl, rfl⟩,
    fun m h => execute_plp_toggle m h, fun m => execute_rti_inhibit m,
    ⟨rfl, rfl, rfl⟩, ⟨rfl, rfl, rfl⟩, rfl, ⟨rfl, rfl, rfl, rfl⟩, ⟨rfl, rfl, rfl⟩⟩

theorem cli_delay_spec_witness :
    (execute_plp c1_plp_machine).cpu.I = 1 ∧
    (execute_plp c1_plp_machine).cpu.interrupt_delay_counter = 1 ∧
    (execute_cli c1_plp_machine).cpu.I = 0 := by
  have h := cli_delay_spec
  have hp := h.2.2.1 c1_plp_machine (by decide)
  exact ⟨by rw [hp.1]; rfl, hp.2.2, (h.1 c1_plp_machine).1⟩

theorem palette_mirror_spec_witness :
    palette_probe init_ppu (0x3F10 + 4) (0x3F00 + 4) 0xEA = 0xEA &&& 0x3F ∧
    palette_probe init_ppu (0x3F00 + 4) (0x3F10 + 4) 0xEA = 0xEA &&& 0x3F := by
  exact palette_mirror_spec init_ppu 4 0xEA rfl (by decide) (Or.inr (Or.inl rfl))

end NEZ
